import Mathlib

/-!
# Verification of the PLS (pixel local storage) render pipeline core

This file gives a shallow embedding of the core render pipeline of the
rive-renderer repository and proves properties of it.  The embedding covers:

* `src/include/rive/pls/pls_draw.hpp` — the `InteriorTriangulationDraw`
  subdivision constants and `FindSubdivisionCount`, and
  `PLSDraw::ResourceCounters` with its SIMD-vector round trip;
* `src/renderer/vulkan/pls_render_context_vulkan_impl.cpp` — the render-pass
  variant indexing of `DrawPipelineLayout`, `prepareToMapBuffers`, and the
  command/event trace recorded by `PLSRenderContextVulkanImpl::flush`.

Machine floats are embedded as exact rationals, machine integers as `Nat`.
Constants and enum declarations that live in headers outside these sources
(`pls.hpp`) are either taken as explicit parameters or modelled from the
spec; each such definition says so in its doc comment.
-/

/-! ## pls_draw.hpp: InteriorTriangulationDraw subdivision counts -/

namespace InteriorTriangulationDraw

/-- `kJoinSegmentCount` (pls_draw.hpp line 247): the final segment in an
outerCurve patch is a bowtie join. -/
def kJoinSegmentCount : Nat := 1

/-- `kPatchSegmentCountExcludingJoin = kOuterCurvePatchSegmentSpan -
kJoinSegmentCount` (pls_draw.hpp lines 248-249).  `kOuterCurvePatchSegmentSpan`
is declared in `pls.hpp`, which is not among these sources, so it is kept as a
parameter here. -/
def kPatchSegmentCountExcludingJoin (kOuterCurvePatchSegmentSpan : Nat) : Nat :=
  kOuterCurvePatchSegmentSpan - kJoinSegmentCount

/-- `kMaxCurveSubdivisions` (pls_draw.hpp lines 252-254): ceiling division of
`kMaxParametricSegments` by `kPatchSegmentCountExcludingJoin`, written exactly
as in the source: `(kMaxParametricSegments + kPatchSegmentCountExcludingJoin
- 1) / kPatchSegmentCountExcludingJoin`.  `kMaxParametricSegments` lives in
`pls.hpp` and is kept as a parameter. -/
def kMaxCurveSubdivisions (kMaxParametricSegments kOuterCurvePatchSegmentSpan : Nat) : Nat :=
  (kMaxParametricSegments + kPatchSegmentCountExcludingJoin kOuterCurvePatchSegmentSpan - 1) /
    kPatchSegmentCountExcludingJoin kOuterCurvePatchSegmentSpan

end InteriorTriangulationDraw

/-- `std::clamp(v, lo, hi)`: `v < lo ? lo : (hi < v ? hi : v)`. -/
def stdClamp (v lo hi : Nat) : Nat := if v < lo then lo else if hi < v then hi else v

namespace InteriorTriangulationDraw

/-- `FindSubdivisionCount` (pls_draw.hpp lines 256-263):
`ceilf(wangs_formula::cubic(pts, kParametricPrecision, vectorXform) *
(1.f / kPatchSegmentCountExcludingJoin))` clamped to
`[1, kMaxCurveSubdivisions]`.  The float arithmetic is embedded as exact
rational arithmetic; `wangsCubic` stands for the value of
`wangs_formula::cubic(pts, kParametricPrecision, vectorXform)` (a nonnegative
square root; `wangs_formula.hpp` is outside these sources).  The conversion of
the `ceilf` result to `size_t` is `Int.toNat`. -/
def FindSubdivisionCount (kMaxParametricSegments kOuterCurvePatchSegmentSpan : Nat)
    (wangsCubic : ℚ) : Nat :=
  let numSubdivisions : Nat :=
    (Int.ceil (wangsCubic *
      (1 / (kPatchSegmentCountExcludingJoin kOuterCurvePatchSegmentSpan : ℚ)))).toNat
  stdClamp numSubdivisions 1
    (kMaxCurveSubdivisions kMaxParametricSegments kOuterCurvePatchSegmentSpan)

end InteriorTriangulationDraw

/-- `stdClamp` lands in `[lo, hi]` whenever `lo ≤ hi`. -/
theorem stdClamp_mem (v lo hi : Nat) (h : lo ≤ hi) :
    lo ≤ stdClamp v lo hi ∧ stdClamp v lo hi ≤ hi := by
  unfold stdClamp
  split_ifs <;> omega

/-- C6: for every cubic (i.e. every value `w` of Wang's formula, which is
nonnegative) and all positive values of the `pls.hpp` constants,
`FindSubdivisionCount` equals `clamp(ceil(w / kPatchSegmentCountExcludingJoin),
1, kMaxCurveSubdivisions)`, and in particular always lies in
`[1, kMaxCurveSubdivisions]`. -/
theorem findSubdivisionCount_spec (m span : Nat) (hspan : 2 ≤ span) (hm : 1 ≤ m)
    (w : ℚ) (hw : 0 ≤ w) :
    InteriorTriangulationDraw.FindSubdivisionCount m span w =
      stdClamp (Int.ceil (w / (InteriorTriangulationDraw.kPatchSegmentCountExcludingJoin span : ℚ))).toNat
        1 (InteriorTriangulationDraw.kMaxCurveSubdivisions m span)
    ∧ 1 ≤ InteriorTriangulationDraw.FindSubdivisionCount m span w
    ∧ InteriorTriangulationDraw.FindSubdivisionCount m span w ≤
        InteriorTriangulationDraw.kMaxCurveSubdivisions m span := by
  have hmul : w * (1 / (InteriorTriangulationDraw.kPatchSegmentCountExcludingJoin span : ℚ)) =
      w / (InteriorTriangulationDraw.kPatchSegmentCountExcludingJoin span : ℚ) :=
    mul_one_div w _
  have heq : InteriorTriangulationDraw.FindSubdivisionCount m span w =
      stdClamp (Int.ceil (w / (InteriorTriangulationDraw.kPatchSegmentCountExcludingJoin span : ℚ))).toNat
        1 (InteriorTriangulationDraw.kMaxCurveSubdivisions m span) := by
    unfold InteriorTriangulationDraw.FindSubdivisionCount
    rw [hmul]
  have hk : 1 ≤ InteriorTriangulationDraw.kPatchSegmentCountExcludingJoin span := by
    unfold InteriorTriangulationDraw.kPatchSegmentCountExcludingJoin
      InteriorTriangulationDraw.kJoinSegmentCount
    omega
  have hmax : 1 ≤ InteriorTriangulationDraw.kMaxCurveSubdivisions m span := by
    unfold InteriorTriangulationDraw.kMaxCurveSubdivisions
    rcases Nat.eq_zero_or_pos
      ((m + InteriorTriangulationDraw.kPatchSegmentCountExcludingJoin span - 1) /
        InteriorTriangulationDraw.kPatchSegmentCountExcludingJoin span) with h0 | h0
    · exfalso
      have h1 := Nat.div_add_mod
        (m + InteriorTriangulationDraw.kPatchSegmentCountExcludingJoin span - 1)
        (InteriorTriangulationDraw.kPatchSegmentCountExcludingJoin span)
      have h2 := Nat.mod_lt
        (m + InteriorTriangulationDraw.kPatchSegmentCountExcludingJoin span - 1)
        (show 0 < InteriorTriangulationDraw.kPatchSegmentCountExcludingJoin span by omega)
      rw [h0, Nat.mul_zero] at h1
      omega
    · exact h0
  refine ⟨heq, ?_, ?_⟩
  · rw [heq]; exact (stdClamp_mem _ _ _ hmax).1
  · rw [heq]; exact (stdClamp_mem _ _ _ hmax).2

/-- Witness for C6 at `kMaxParametricSegments = 1024`,
`kOuterCurvePatchSegmentSpan = 17`, Wang's-formula value `100`. -/
theorem findSubdivisionCount_spec_witness :
    InteriorTriangulationDraw.FindSubdivisionCount 1024 17 100 =
      stdClamp (Int.ceil ((100 : ℚ) / (InteriorTriangulationDraw.kPatchSegmentCountExcludingJoin 17 : ℚ))).toNat
        1 (InteriorTriangulationDraw.kMaxCurveSubdivisions 1024 17)
    ∧ 1 ≤ InteriorTriangulationDraw.FindSubdivisionCount 1024 17 100
    ∧ InteriorTriangulationDraw.FindSubdivisionCount 1024 17 100 ≤
        InteriorTriangulationDraw.kMaxCurveSubdivisions 1024 17 :=
  findSubdivisionCount_spec 1024 17 (by norm_num) (by norm_num) 100 (by norm_num)

/-- C7: `kMaxCurveSubdivisions * kPatchSegmentCountExcludingJoin ≥
kMaxParametricSegments`, with `kPatchSegmentCountExcludingJoin =
kOuterCurvePatchSegmentSpan - 1` and `kMaxCurveSubdivisions` the ceiling
division, in exact integer arithmetic, for every value of the `pls.hpp` base
constants with `kOuterCurvePatchSegmentSpan ≥ 2`. -/
theorem maxCurveSubdivisions_covers_maxParametricSegments (m span : Nat) (hspan : 2 ≤ span) :
    InteriorTriangulationDraw.kPatchSegmentCountExcludingJoin span = span - 1
    ∧ InteriorTriangulationDraw.kMaxCurveSubdivisions m span = (m + (span - 1) - 1) / (span - 1)
    ∧ m ≤ InteriorTriangulationDraw.kMaxCurveSubdivisions m span *
        InteriorTriangulationDraw.kPatchSegmentCountExcludingJoin span := by
  have hk : InteriorTriangulationDraw.kPatchSegmentCountExcludingJoin span = span - 1 := by
    unfold InteriorTriangulationDraw.kPatchSegmentCountExcludingJoin
      InteriorTriangulationDraw.kJoinSegmentCount
    omega
  refine ⟨hk, by rw [InteriorTriangulationDraw.kMaxCurveSubdivisions, hk], ?_⟩
  rw [InteriorTriangulationDraw.kMaxCurveSubdivisions, hk]
  have hkpos : 0 < span - 1 := by omega
  have h1 := Nat.div_add_mod (m + (span - 1) - 1) (span - 1)
  have h2 := Nat.mod_lt (m + (span - 1) - 1) hkpos
  have h3 : m ≤ (span - 1) * ((m + (span - 1) - 1) / (span - 1)) := by omega
  calc m ≤ (span - 1) * ((m + (span - 1) - 1) / (span - 1)) := h3
    _ = (m + (span - 1) - 1) / (span - 1) * (span - 1) := Nat.mul_comm _ _

/-- Witness for C7 at `kMaxParametricSegments = 1024`,
`kOuterCurvePatchSegmentSpan = 17`. -/
theorem maxCurveSubdivisions_covers_maxParametricSegments_witness :
    InteriorTriangulationDraw.kPatchSegmentCountExcludingJoin 17 = 16
    ∧ InteriorTriangulationDraw.kMaxCurveSubdivisions 1024 17 = (1024 + 16 - 1) / 16
    ∧ 1024 ≤ InteriorTriangulationDraw.kMaxCurveSubdivisions 1024 17 *
        InteriorTriangulationDraw.kPatchSegmentCountExcludingJoin 17 :=
  maxCurveSubdivisions_covers_maxParametricSegments 1024 17 (by norm_num)

/-! ## pls_draw.hpp: PLSDraw::ResourceCounters -/

/-- `PLSDraw::ResourceCounters` (pls_draw.hpp lines 54-82): eight `size_t`
counters, declared in this order. -/
structure ResourceCounters where
  midpointFanTessVertexCount : Nat
  outerCubicTessVertexCount : Nat
  pathCount : Nat
  contourCount : Nat
  tessellatedSegmentCount : Nat
  maxTriangleVertexCount : Nat
  imageDrawCount : Nat
  complexGradientSpanCount : Nat

/-- `ResourceCounters::toVec` (pls_draw.hpp lines 58-64): `memcpy` of the
struct into a `simd::gvec<size_t, 8>`, i.e. the eight members in declaration
order. -/
def ResourceCounters.toVec (c : ResourceCounters) : List Nat :=
  [c.midpointFanTessVertexCount, c.outerCubicTessVertexCount, c.pathCount, c.contourCount,
   c.tessellatedSegmentCount, c.maxTriangleVertexCount, c.imageDrawCount,
   c.complexGradientSpanCount]

/-- `ResourceCounters(const VecType&)` (pls_draw.hpp lines 66-70): `memcpy` of
a `simd::gvec<size_t, 8>` back into the struct.  Defined only on vectors of
the right width. -/
def ResourceCounters.ofVec : List Nat → Option ResourceCounters
  | [a, b, c, d, e, f, g, h] => some ⟨a, b, c, d, e, f, g, h⟩
  | _ => none

/-- C9: encoding a `ResourceCounters` via its SIMD representation and decoding
it returns the same eight counters. -/
theorem resourceCounters_toVec_roundTrip (c : ResourceCounters) :
    ResourceCounters.ofVec (ResourceCounters.toVec c) = some c := rfl

/-! ## pls.hpp enums used by the Vulkan backend (modelled) -/

/-- Modelled from the spec: `pls::LoadAction` (declared in `pls.hpp`, which is
not among these sources).  The spec lists the members as
`{preserveRenderTarget, clear, dontCare}`; `toInt` below numbers them in that
order.  The render-pass variant round trip proved in this file is independent
of the numbering, because `RenderPassVariantIdx` and
`LoadOpFromRenderPassVariant` both go through the same numbering. -/
inductive LoadAction
  | preserveRenderTarget
  | clear
  | dontCare
deriving DecidableEq

/-- `static_cast<int>(loadAction)`. -/
def LoadAction.toInt : LoadAction → Nat
  | .preserveRenderTarget => 0
  | .clear => 1
  | .dontCare => 2

/-- `static_cast<pls::LoadAction>(n)`: partial inverse of the numbering
(`none` for values outside the enum, which the source marks
`RIVE_UNREACHABLE`). -/
def LoadAction.ofInt : Nat → Option LoadAction
  | 0 => some .preserveRenderTarget
  | 1 => some .clear
  | 2 => some .dontCare
  | _ => none

/-- The two `VkFormat` values accepted by `DrawPipelineLayout`
(`RenderPassVariantIdx` asserts the framebuffer format is one of these). -/
inductive VkFormat
  | R8G8B8A8_UNORM
  | B8G8R8A8_UNORM
deriving DecidableEq

/-- The `VkAttachmentLoadOp` values produced by
`LoadOpFromRenderPassVariant`. -/
inductive VkAttachmentLoadOp
  | load
  | clear
  | dontCare
deriving DecidableEq

namespace DrawPipelineLayout

/-- `DrawPipelineLayout::kRenderPassVariantCount`
(pls_render_context_vulkan_impl.cpp line 711). -/
def kRenderPassVariantCount : Nat := 6

/-- `DrawPipelineLayout::RenderPassVariantIdx`
(pls_render_context_vulkan_impl.cpp lines 713-722):
`(loadActionIdx << 1) | (framebufferFormat == VK_FORMAT_B8G8R8A8_UNORM ? 1 : 0)`. -/
def RenderPassVariantIdx (framebufferFormat : VkFormat) (loadAction : LoadAction) : Nat :=
  (LoadAction.toInt loadAction <<< 1) |||
    (if framebufferFormat = VkFormat.B8G8R8A8_UNORM then 1 else 0)

/-- `DrawPipelineLayout::FormatFromRenderPassVariant`
(pls_render_context_vulkan_impl.cpp lines 724-727). -/
def FormatFromRenderPassVariant (idx : Nat) : VkFormat :=
  if idx &&& 1 = 1 then VkFormat.B8G8R8A8_UNORM else VkFormat.R8G8B8A8_UNORM

/-- `DrawPipelineLayout::LoadOpFromRenderPassVariant`
(pls_render_context_vulkan_impl.cpp lines 729-742): casts `idx >> 1` back to a
`pls::LoadAction` and switches on it.  `none` corresponds to
`RIVE_UNREACHABLE`. -/
def LoadOpFromRenderPassVariant (idx : Nat) : Option VkAttachmentLoadOp :=
  match LoadAction.ofInt (idx >>> 1) with
  | some LoadAction.preserveRenderTarget => some VkAttachmentLoadOp.load
  | some LoadAction.clear => some VkAttachmentLoadOp.clear
  | some LoadAction.dontCare => some VkAttachmentLoadOp.dontCare
  | none => none

end DrawPipelineLayout

/-- The Vulkan load op the claim associates with each load action
(`preserveRenderTarget -> LOAD`, `clear -> CLEAR`, `dontCare -> DONT_CARE`). -/
def loadOpForAction : LoadAction → VkAttachmentLoadOp
  | .preserveRenderTarget => VkAttachmentLoadOp.load
  | .clear => VkAttachmentLoadOp.clear
  | .dontCare => VkAttachmentLoadOp.dontCare

/-- C8: the render-pass cache key is a bijection between the six
(framebuffer-format, load-action) pairs and indices `0..5`: every pair maps
below `kRenderPassVariantCount`, and `FormatFromRenderPassVariant` /
`LoadOpFromRenderPassVariant` recover the original format and the Vulkan load
op of the original load action. -/
theorem renderPassVariantIdx_bijection :
    ∀ (fmt : VkFormat) (la : LoadAction),
      DrawPipelineLayout.RenderPassVariantIdx fmt la < DrawPipelineLayout.kRenderPassVariantCount
      ∧ DrawPipelineLayout.FormatFromRenderPassVariant
          (DrawPipelineLayout.RenderPassVariantIdx fmt la) = fmt
      ∧ DrawPipelineLayout.LoadOpFromRenderPassVariant
          (DrawPipelineLayout.RenderPassVariantIdx fmt la) = some (loadOpForAction la) := by
  intro fmt la
  cases fmt <;> cases la <;> exact ⟨by decide, by decide, by decide⟩

/-! ## The Vulkan flush engine: command/event traces

`PLSRenderContextVulkanImpl::flush` and `prepareToMapBuffers` are embedded as
functions from an explicit engine state to a new state plus the list of GPU
commands and host-side events they record, in order. -/

/-- Modelled from the spec: `pls::InterlockMode` (declared in `pls.hpp`), with
the members the spec lists: `{rasterOrdering, atomics, depthStencil}`. -/
inductive InterlockMode
  | rasterOrdering
  | atomics
  | depthStencil
deriving DecidableEq

/-- `pls::DrawType`: the constructors are exactly the cases of the draw switch
in `flush` (pls_render_context_vulkan_impl.cpp lines 2614-2700).
`plsAtomicInitialize` and `stencilClipReset` are `RIVE_UNREACHABLE` there. -/
inductive DrawType
  | midpointFanPatches
  | outerCurvePatches
  | interiorTriangulation
  | imageRect
  | imageMesh
  | plsAtomicResolve
  | plsAtomicInitialize
  | stencilClipReset
deriving DecidableEq

/-- Draw types that are not `RIVE_UNREACHABLE` in the Vulkan flush. -/
def DrawType.reachableInVulkanFlush : DrawType → Bool
  | .plsAtomicInitialize => false
  | .stencilClipReset => false
  | _ => true

/-- The GPU buffers the Vulkan implementation binds or synchronizes.  The ring
buffers are the ten members synchronized by `prepareToMapBuffers`
(pls_render_context_vulkan_impl.cpp lines 1772-1782); `renderBuffer` stands
for a client `RenderBufferVulkanImpl`, identified by an id, and
`imageUploadBuffer` for a texture's staging buffer. -/
inductive BufferId
  | flushUniform
  | imageDrawUniform
  | pathBuffer
  | paintBuffer
  | paintAuxBuffer
  | contourBuffer
  | simpleColorRamps
  | gradSpan
  | tessSpan
  | triangle
  | tessSpanIndex
  | pathPatchVertex
  | pathPatchIndex
  | imageRectVertex
  | imageRectIndex
  | renderBuffer (id : Nat)
  | imageUploadBuffer (texId : Nat)
  | nullImageUploadBuffer
deriving DecidableEq

/-- The images touched by the flush.  `imageTexture` is a decoded
`PLSTextureVulkanImpl`, identified by an id. -/
inductive ImageId
  | gradientTexture
  | tessVertexTexture
  | imageTexture (texId : Nat)
  | nullImageTexture
  | targetTexture
  | coverageTexture
  | clipTexture
  | scratchColorTexture
  | coverageAtomicTexture
deriving DecidableEq

/-- The `VkImageLayout` values appearing in the recorded barriers. -/
inductive ImageLayout
  | undefined
  | colorAttachmentOptimal
  | transferDstOptimal
  | transferSrcOptimal
  | shaderReadOnlyOptimal
  | general
deriving DecidableEq

/-- The pipelines bound during a flush; a `drawPipeline` is identified by its
cache key (pls_render_context_vulkan_impl.cpp lines 2561-2587). -/
inductive PipelineId
  | colorRampPipeline
  | tessellatePipeline
  | drawPipeline (key : Nat)
deriving DecidableEq

/-- The descriptor-set layouts a set can be allocated against. -/
inductive DescriptorSetLayoutId
  | colorRampLayout
  | tessellateLayout
  | perFlushLayout
  | perDrawLayout
  | plsLayout
deriving DecidableEq

/-- The access masks of the explicit `vkCmdPipelineBarrier` recorded between
draws (pls_render_context_vulkan_impl.cpp lines 2596-2611). -/
inductive AccessMask
  | colorAttachmentWrite
  | inputAttachmentRead
deriving DecidableEq

/-- The render passes begun during a flush; the main draw pass carries its
render-pass variant index. -/
inductive RenderPassId
  | colorRampPass
  | tessellatePass
  | drawPass (variantIdx : Nat)
deriving DecidableEq

/-- One recorded GPU command or host-side event.  GPU commands mirror the
`vkCmd*` calls of `flush`; the remaining constructors are host-side events
(descriptor pool/set management, fence waits and ring synchronization).
`allocateImageTextureDescriptorSet` covers the paired
`allocateDescriptorSet(layout.perDrawLayout())` and
`update_image_descriptor_sets` on an image texture's per-draw set
(pls_render_context_vulkan_impl.cpp lines 2522-2535). `unreachable` stands
for `RIVE_UNREACHABLE`. -/
inductive Cmd
  | insertImageMemoryBarrier (image : ImageId) (oldLayout newLayout : ImageLayout)
      (baseMip mipCount : Nat)
  | copyBufferToImage (src : BufferId) (dst : ImageId)
  | blitImage (image : ImageId) (srcLevel dstLevel : Nat)
  | clearColorImage (image : ImageId)
  | beginRenderPass (pass : RenderPassId)
  | endRenderPass
  | setViewport
  | setScissor
  | bindPipeline (pipeline : PipelineId)
  | bindVertexBuffer (slot : Nat) (buffer : BufferId)
  | bindIndexBuffer (buffer : BufferId)
  | bindDescriptorSets (firstSet setCount : Nat)
  | draw (vertexCount instanceCount firstVertex firstInstance : Nat)
  | drawIndexed (indexCount instanceCount firstIndex vertexOffset firstInstance : Nat)
  | pipelineBarrier (srcAccess dstAccess : AccessMask)
  | createDescriptorPool
  | reuseDescriptorPool
  | allocateDescriptorSet (layout : DescriptorSetLayoutId)
  | allocateImageTextureDescriptorSet (texId : Nat)
  | updateDescriptorSets
  | makeFramebuffer
  | fenceWait (fence : Nat)
  | synchronizeBufferSize (buffer : BufferId) (slot : Nat)
  | unreachable
deriving DecidableEq

/-- Whether a command issues GPU work for vertices (a `vkCmdDraw` or
`vkCmdDrawIndexed`). -/
def Cmd.isDraw : Cmd → Bool
  | .draw _ _ _ _ => true
  | .drawIndexed _ _ _ _ _ => true
  | _ => false

/-- The explicit color-attachment-write to input-attachment-read memory
barrier recorded between draws in atomics mode. -/
def memBarrierCmd : Cmd :=
  Cmd.pipelineBarrier AccessMask.colorAttachmentWrite AccessMask.inputAttachmentRead

/-- Modelled from the spec: constants and functions declared in `pls.hpp`,
which is not among these sources.  The Vulkan implementation only forwards
their values into commands and cache keys; no claim in this file depends on
the concrete values, so they are carried as parameters:
`kBufferRingSize` (the spec requires at least 2 slots); `patchIndexCount` /
`patchBaseIndex` (`pls::PatchIndexCount` / `pls::PatchBaseIndex`, the slice of
the shared patch index buffer per draw type); `tessSpanIndicesCount`
(`std::size(pls::kTessSpanIndices)`); `imageRectIndicesCount`
(`std::size(pls::kImageRectIndices)`); `shaderUniqueKey`
(`pls::ShaderUniqueKey(drawType, shaderFeatures, interlockMode,
ShaderMiscFlags::none)`); `kDrawPipelineOptionCount` (bit width of
`DrawPipelineOptions`); `enableAdvancedBlendMask`
(`pls::ShaderFeatures::ENABLE_ADVANCED_BLEND` as a bit mask over the
`Nat`-encoded feature set). -/
structure PLSConstants where
  kBufferRingSize : Nat
  patchIndexCount : DrawType → Nat
  patchBaseIndex : DrawType → Nat
  tessSpanIndicesCount : Nat
  imageRectIndicesCount : Nat
  shaderUniqueKey : DrawType → Nat → InterlockMode → Nat
  kDrawPipelineOptionCount : Nat
  enableAdvancedBlendMask : Nat

namespace descriptor_pool_limits

/-- pls_render_context_vulkan_impl.cpp line 1787. -/
def kMaxUniformUpdates : Nat := 3

/-- pls_render_context_vulkan_impl.cpp line 1788. -/
def kMaxDynamicUniformUpdates : Nat := 1

/-- pls_render_context_vulkan_impl.cpp line 1789. -/
def kMaxImageTextureUpdates : Nat := 256

/-- pls_render_context_vulkan_impl.cpp lines 1790-1791. -/
def kMaxSampledImageUpdates : Nat := 2 + kMaxImageTextureUpdates

/-- pls_render_context_vulkan_impl.cpp line 1792. -/
def kMaxStorageBufferUpdates : Nat := 6

/-- pls_render_context_vulkan_impl.cpp line 1793. -/
def kMaxDescriptorSets : Nat := 3 + kMaxImageTextureUpdates

end descriptor_pool_limits

/-- The fields of a `pls::DrawBatch` read by the Vulkan flush
(`drawType`, `elementCount`, `baseElement`, `imageTexture`, `shaderFeatures`,
`needsBarrier`, `imageDrawDataOffset`, and the three mesh buffers).
`imageTexture` is `none` for a null pointer, otherwise the texture id;
`shaderFeatures` is the `Nat`-encoded feature bit set; the mesh buffers are
`RenderBufferVulkanImpl` ids. -/
structure DrawBatch where
  drawType : DrawType
  elementCount : Nat
  baseElement : Nat
  imageTexture : Option Nat
  shaderFeatures : Nat
  needsBarrier : Bool
  imageDrawDataOffset : Nat
  vertexBuffer : Nat
  uvBuffer : Nat
  indexBuffer : Nat

/-- The fields of a `pls::FlushDescriptor` read by the Vulkan flush.
`frameCompletionFence` is a fence id. -/
structure FlushDescriptor where
  interlockMode : InterlockMode
  colorLoadAction : LoadAction
  combinedShaderFeatures : Nat
  clearColor : Nat
  coverageClearValue : Nat
  drawList : List DrawBatch
  firstPath : Nat
  firstContour : Nat
  firstPaint : Nat
  firstPaintAux : Nat
  firstTessVertexSpan : Nat
  firstComplexGradSpan : Nat
  tessVertexSpanCount : Nat
  tessDataHeight : Nat
  complexGradSpanCount : Nat
  complexGradRowsTop : Nat
  complexGradRowsHeight : Nat
  simpleGradDataOffsetInBytes : Nat
  simpleGradTexelsWidth : Nat
  simpleGradTexelsHeight : Nat
  flushUniformDataOffsetInBytes : Nat
  wireframe : Bool
  isFinalFlushOfFrame : Bool
  frameCompletionFence : Nat

/-- The mutable members of a `PLSTextureVulkanImpl` the flush reads or
writes: whether `m_imageUploadBuffer` is still pending (`hasUpdates`), the mip
level count, and `m_descriptorSetFrameIdx` (pls_render_context_vulkan_impl.cpp
lines 233-236; `none` models the `size_t` max sentinel meaning "no frame
yet"). -/
structure PLSTextureVulkanState where
  hasUpdates : Bool
  mipLevels : Nat
  descriptorSetFrameIdx : Option Nat

/-- The mutable members of a `PLSRenderTargetVulkan` touched by
`PLSRenderTargetVulkan::synchronize` (pls_render_context_vulkan_impl.cpp
lines 1904-1975): the framebuffer format and which lazily created auxiliary
images exist. -/
structure RenderTargetState where
  framebufferFormat : VkFormat
  coverageTextureCreated : Bool
  clipTextureCreated : Bool
  scratchColorTextureCreated : Bool
  coverageAtomicTextureCreated : Bool

/-- The mutable members of `PLSRenderContextVulkanImpl` touched by
`prepareToMapBuffers` and `flush`: the frame index, the buffer-ring slot
index, the per-slot frame completion fences (fence ids; `none` when absent),
the null texture and the decoded textures (by id), lazily created draw
pipeline layouts and render passes, the draw pipeline cache keys (in
insertion order), the descriptor-set pool free list and the resource
purgatory (as expiration frame indices), and the
`fillModeNonSolid` capability bit. -/
structure EngineState where
  currentFrameIdx : Nat
  bufferRingIdx : Nat
  frameCompletionFences : Nat → Option Nat
  nullImageTexture : PLSTextureVulkanState
  textures : Nat → PLSTextureVulkanState
  drawPipelineLayoutCreated : InterlockMode → Bool
  drawRenderPassCreated : InterlockMode × Nat → Bool
  drawPipelineKeys : List Nat
  descriptorSetPoolPool : List Nat
  resourcePurgatory : List Nat
  capFillModeNonSolid : Bool

/-- `PLSRenderContextVulkanImpl::makeDescriptorSetPool`
(pls_render_context_vulkan_impl.cpp lines 1885-1902): reuse the front pool of
the free list when its expiration frame has passed (popping it and resetting
its descriptor sets), otherwise create a fresh pool. -/
def makeDescriptorSetPool (s : EngineState) : EngineState × List Cmd :=
  match s.descriptorSetPoolPool with
  | front :: rest =>
    if front ≤ s.currentFrameIdx then
      ({ s with descriptorSetPoolPool := rest }, [Cmd.reuseDescriptorPool])
    else (s, [Cmd.createDescriptorPool])
  | [] => (s, [Cmd.createDescriptorPool])

/-- The mipmap generation loop of `PLSTextureVulkanImpl::synchronize`
(pls_render_context_vulkan_impl.cpp lines 164-205): for each level `1 ≤ level
< mipLevels`, transition level `level - 1` to transfer-src and blit it into
`level`. -/
def mipBlitCmds (image : ImageId) (mipLevels : Nat) : List Cmd :=
  (List.range (mipLevels - 1)).flatMap fun i =>
    [Cmd.insertImageMemoryBarrier image ImageLayout.transferDstOptimal
       ImageLayout.transferSrcOptimal i 1,
     Cmd.blitImage image i (i + 1)]

/-- `PLSTextureVulkanImpl::synchronize`
(pls_render_context_vulkan_impl.cpp lines 132-223): upload the staging buffer,
generate the mipmap chain when there is more than one level, and transition
everything to shader-read. -/
def textureSynchronizeCmds (image : ImageId) (uploadBuffer : BufferId) (mipLevels : Nat) :
    List Cmd :=
  [Cmd.insertImageMemoryBarrier image ImageLayout.undefined ImageLayout.transferDstOptimal
     0 mipLevels,
   Cmd.copyBufferToImage uploadBuffer image]
  ++ (if 1 < mipLevels then
        mipBlitCmds image mipLevels ++
          [Cmd.insertImageMemoryBarrier image ImageLayout.transferSrcOptimal
             ImageLayout.shaderReadOnlyOptimal 0 (mipLevels - 1)]
      else [])
  ++ [Cmd.insertImageMemoryBarrier image ImageLayout.transferDstOptimal
        ImageLayout.shaderReadOnlyOptimal (mipLevels - 1) 1]

/-- The pending-upload walk over the draw list
(pls_render_context_vulkan_impl.cpp lines 2195-2204): for each batch with a
non-null image texture that still has updates, run its synchronize (which
clears its pending-upload flag). -/
def syncDrawListTextures (textures : Nat → PLSTextureVulkanState) :
    List DrawBatch → (Nat → PLSTextureVulkanState) × List Cmd
  | [] => (textures, [])
  | b :: bs =>
    let step : (Nat → PLSTextureVulkanState) × List Cmd :=
      match b.imageTexture with
      | some texId =>
        if (textures texId).hasUpdates then
          (Function.update textures texId ({ textures texId with hasUpdates := false }),
           textureSynchronizeCmds (ImageId.imageTexture texId) (BufferId.imageUploadBuffer texId)
             (textures texId).mipLevels)
        else (textures, [])
      | none => (textures, [])
    let rest := syncDrawListTextures step.1 bs
    (rest.1, step.2 ++ rest.2)

/-- `PLSRenderTargetVulkan::synchronize`
(pls_render_context_vulkan_impl.cpp lines 1904-1975): lazily create the
coverage / clip / scratch-color / atomic-coverage images needed by the
interlock mode, transitioning each new image from undefined to general.  In
the source the four blocks run in order, but each block tests and sets only
its own member, so the conditions are written here against the incoming
state. -/
def renderTargetSynchronize (rt : RenderTargetState) (interlockMode : InterlockMode) :
    RenderTargetState × List Cmd :=
  let needCoverage :=
    interlockMode = InterlockMode.rasterOrdering ∧ rt.coverageTextureCreated = false
  let needClip := rt.clipTextureCreated = false
  let needScratch :=
    interlockMode = InterlockMode.rasterOrdering ∧ rt.scratchColorTextureCreated = false
  let needAtomic :=
    interlockMode = InterlockMode.atomics ∧ rt.coverageAtomicTextureCreated = false
  ({ rt with
      coverageTextureCreated := if needCoverage then true else rt.coverageTextureCreated,
      clipTextureCreated := if needClip then true else rt.clipTextureCreated,
      scratchColorTextureCreated := if needScratch then true else rt.scratchColorTextureCreated,
      coverageAtomicTextureCreated :=
        if needAtomic then true else rt.coverageAtomicTextureCreated },
   (if needCoverage then
      [Cmd.insertImageMemoryBarrier ImageId.coverageTexture ImageLayout.undefined
         ImageLayout.general 0 1]
    else [])
   ++ (if needClip then
         [Cmd.insertImageMemoryBarrier ImageId.clipTexture ImageLayout.undefined
            ImageLayout.general 0 1]
       else [])
   ++ (if needScratch then
         [Cmd.insertImageMemoryBarrier ImageId.scratchColorTexture ImageLayout.undefined
            ImageLayout.general 0 1]
       else [])
   ++ (if needAtomic then
         [Cmd.insertImageMemoryBarrier ImageId.coverageAtomicTexture ImageLayout.undefined
            ImageLayout.general 0 1]
       else []))

/-- The per-draw-pass values `flush` computes once and the draw-list loop
reads: the interlock mode, the flush-wide shader features, the wireframe flag
and the render-pass variant index. -/
structure DrawPassContext where
  interlockMode : InterlockMode
  combinedShaderFeatures : Nat
  wireframe : Bool
  renderPassVariantIdx : Nat

/-- The draw pipeline cache key (pls_render_context_vulkan_impl.cpp lines
2557-2577): `pls::ShaderUniqueKey(drawType, shaderFeatures, interlockMode,
none)` (with `combinedShaderFeatures` under atomics and the batch's features
otherwise), shifted past the pipeline option bits and or-ed with the
wireframe option (set when the device supports `fillModeNonSolid` and the
flush requests wireframe), then combined with the render-pass variant. -/
def pipelineKeyOf (C : PLSConstants) (ctx : DrawPassContext) (fillModeNonSolid : Bool)
    (batch : DrawBatch) : Nat :=
  let shaderFeatures :=
    if ctx.interlockMode = InterlockMode.atomics then ctx.combinedShaderFeatures
    else batch.shaderFeatures
  let drawPipelineOptions : Nat := if fillModeNonSolid && ctx.wireframe then 1 else 0
  ((C.shaderUniqueKey batch.drawType shaderFeatures ctx.interlockMode <<<
      C.kDrawPipelineOptionCount ||| drawPipelineOptions) *
    DrawPipelineLayout.kRenderPassVariantCount) + ctx.renderPassVariantIdx

/-- The image-texture part of the draw-list loop body
(pls_render_context_vulkan_impl.cpp lines 2505-2555), for a batch whose
`imageTexture` is the non-null `texId`: when the texture's descriptor set is
not from the current frame, first start a fresh descriptor pool if this flush
already performed `kMaxImageTextureUpdates` image-texture updates, then
allocate and write a new per-draw descriptor set for it and stamp the
texture with the current frame; in all cases rebind descriptor sets 0-1 with
the batch's dynamic image-draw uniform offset. -/
def imagePart (s : EngineState) (imageTextureUpdateCount : Nat) (texId : Nat) :
    EngineState × Nat × List Cmd :=
  if (s.textures texId).descriptorSetFrameIdx ≠ some s.currentFrameIdx then
    let poolR : EngineState × Nat × List Cmd :=
      if descriptor_pool_limits.kMaxImageTextureUpdates ≤ imageTextureUpdateCount then
        ((makeDescriptorSetPool s).1, 0, (makeDescriptorSetPool s).2)
      else (s, imageTextureUpdateCount, [])
    ({ poolR.1 with textures := (Function.update poolR.1.textures texId
         ({ poolR.1.textures texId with descriptorSetFrameIdx := some poolR.1.currentFrameIdx })) },
     poolR.2.1 + 1,
     poolR.2.2 ++ [Cmd.allocateImageTextureDescriptorSet texId, Cmd.bindDescriptorSets 0 2])
  else (s, imageTextureUpdateCount, [Cmd.bindDescriptorSets 0 2])

/-- The vertex/index binds and the draw call of the draw switch
(pls_render_context_vulkan_impl.cpp lines 2614-2700), per draw type.
`Cmd.unreachable` stands for the `RIVE_UNREACHABLE` cases. -/
def drawTypeCmds (C : PLSConstants) (batch : DrawBatch) : List Cmd :=
  match batch.drawType with
  | .midpointFanPatches | .outerCurvePatches =>
    [Cmd.bindVertexBuffer 0 BufferId.pathPatchVertex,
     Cmd.bindIndexBuffer BufferId.pathPatchIndex,
     Cmd.drawIndexed (C.patchIndexCount batch.drawType) batch.elementCount
       (C.patchBaseIndex batch.drawType) 0 batch.baseElement]
  | .interiorTriangulation =>
    [Cmd.bindVertexBuffer 0 BufferId.triangle,
     Cmd.draw batch.elementCount 1 batch.baseElement 0]
  | .imageRect =>
    [Cmd.bindVertexBuffer 0 BufferId.imageRectVertex,
     Cmd.bindIndexBuffer BufferId.imageRectIndex,
     Cmd.drawIndexed C.imageRectIndicesCount 1 batch.baseElement 0 0]
  | .imageMesh =>
    [Cmd.bindVertexBuffer 0 (BufferId.renderBuffer batch.vertexBuffer),
     Cmd.bindVertexBuffer 1 (BufferId.renderBuffer batch.uvBuffer),
     Cmd.bindIndexBuffer (BufferId.renderBuffer batch.indexBuffer),
     Cmd.drawIndexed batch.elementCount 1 batch.baseElement 0 0]
  | .plsAtomicResolve =>
    [Cmd.draw 4 1 0 0]
  | .plsAtomicInitialize => [Cmd.unreachable]
  | .stencilClipReset => [Cmd.unreachable]

/-- The body of the draw-list loop
(pls_render_context_vulkan_impl.cpp lines 2496-2704) for one `DrawBatch`:
skip batches with `elementCount == 0` entirely; otherwise run the
image-texture part, look up or insert the draw pipeline, record the pending
color-attachment-write to input-attachment-read barrier if one is due, issue
the draw for the batch's draw type, and set the pending-barrier flag to
`interlockMode == atomics && batch.needsBarrier`.  Returns the new engine
state, the new pending-barrier flag, the new image-texture update count and
the recorded commands. -/
def processBatch (C : PLSConstants) (ctx : DrawPassContext) (s : EngineState)
    (needsBarrierBeforeNextDraw : Bool) (imageTextureUpdateCount : Nat) (batch : DrawBatch) :
    EngineState × Bool × Nat × List Cmd :=
  if batch.elementCount = 0 then
    (s, needsBarrierBeforeNextDraw, imageTextureUpdateCount, [])
  else
    let imgR : EngineState × Nat × List Cmd :=
      match batch.imageTexture with
      | none => (s, imageTextureUpdateCount, [])
      | some texId => imagePart s imageTextureUpdateCount texId
    let pipelineKey := pipelineKeyOf C ctx s.capFillModeNonSolid batch
    let s2 := if pipelineKey ∈ imgR.1.drawPipelineKeys then imgR.1
      else { imgR.1 with drawPipelineKeys := imgR.1.drawPipelineKeys ++ [pipelineKey] }
    (s2,
     decide (ctx.interlockMode = InterlockMode.atomics) && batch.needsBarrier,
     imgR.2.1,
     imgR.2.2 ++ Cmd.bindPipeline (PipelineId.drawPipeline pipelineKey) ::
       ((if needsBarrierBeforeNextDraw then [memBarrierCmd] else []) ++ drawTypeCmds C batch))

/-- The draw-list loop of `flush`
(pls_render_context_vulkan_impl.cpp lines 2494-2704): fold `processBatch` over
the draw list, threading the engine state, the pending-barrier flag and the
image-texture update count, and concatenating the recorded commands. -/
def drawLoop (C : PLSConstants) (ctx : DrawPassContext) :
    EngineState → Bool → Nat → List DrawBatch → EngineState × Bool × Nat × List Cmd
  | s, pending, cnt, [] => (s, pending, cnt, [])
  | s, pending, cnt, b :: bs =>
    let r := processBatch C ctx s pending cnt b
    let r2 := drawLoop C ctx r.1 r.2.1 r.2.2.1 bs
    (r2.1, r2.2.1, r2.2.2.1, r.2.2.2 ++ r2.2.2.2)

/-- The complex-gradient render pass
(pls_render_context_vulkan_impl.cpp lines 1996-2051), recorded only when
`complexGradSpanCount > 0`. -/
def complexGradPassCmds (desc : FlushDescriptor) : List Cmd :=
  if 0 < desc.complexGradSpanCount then
    [Cmd.beginRenderPass RenderPassId.colorRampPass,
     Cmd.bindPipeline PipelineId.colorRampPipeline,
     Cmd.setViewport, Cmd.setScissor,
     Cmd.bindVertexBuffer 0 BufferId.gradSpan,
     Cmd.allocateDescriptorSet DescriptorSetLayoutId.colorRampLayout,
     Cmd.updateDescriptorSets,
     Cmd.bindDescriptorSets 0 1,
     Cmd.draw 4 desc.complexGradSpanCount 0 desc.firstComplexGradSpan,
     Cmd.endRenderPass]
  else []

/-- The simple color-ramp upload
(pls_render_context_vulkan_impl.cpp lines 2059-2083), recorded only when
`simpleGradTexelsHeight > 0`. -/
def simpleGradCopyCmds (desc : FlushDescriptor) : List Cmd :=
  if 0 < desc.simpleGradTexelsHeight then
    [Cmd.copyBufferToImage BufferId.simpleColorRamps ImageId.gradientTexture]
  else []

/-- The tessellation render pass
(pls_render_context_vulkan_impl.cpp lines 2096-2183), recorded only when
`tessVertexSpanCount > 0`. -/
def tessPassCmds (C : PLSConstants) (desc : FlushDescriptor) : List Cmd :=
  if 0 < desc.tessVertexSpanCount then
    [Cmd.beginRenderPass RenderPassId.tessellatePass,
     Cmd.bindPipeline PipelineId.tessellatePipeline,
     Cmd.setViewport, Cmd.setScissor,
     Cmd.bindVertexBuffer 0 BufferId.tessSpan,
     Cmd.bindIndexBuffer BufferId.tessSpanIndex,
     Cmd.allocateDescriptorSet DescriptorSetLayoutId.tessellateLayout,
     Cmd.updateDescriptorSets,
     Cmd.updateDescriptorSets,
     Cmd.updateDescriptorSets,
     Cmd.bindDescriptorSets 0 1,
     Cmd.drawIndexed C.tessSpanIndicesCount desc.tessVertexSpanCount 0 0
       desc.firstTessVertexSpan,
     Cmd.endRenderPass]
  else []

/-- The null-image-texture pending-upload check
(pls_render_context_vulkan_impl.cpp lines 2191-2194). -/
def nullTextureSyncCmds (s : EngineState) : List Cmd :=
  if s.nullImageTexture.hasUpdates then
    textureSynchronizeCmds ImageId.nullImageTexture BufferId.nullImageUploadBuffer
      s.nullImageTexture.mipLevels
  else []

/-- The atomic-coverage clear recorded outside the render pass in atomics
mode (pls_render_context_vulkan_impl.cpp lines 2272-2294). -/
def atomicCoverageClearCmds (desc : FlushDescriptor) : List Cmd :=
  if desc.interlockMode = InterlockMode.atomics then
    [Cmd.insertImageMemoryBarrier ImageId.coverageAtomicTexture ImageLayout.general
       ImageLayout.transferDstOptimal 0 1,
     Cmd.clearColorImage ImageId.coverageAtomicTexture,
     Cmd.insertImageMemoryBarrier ImageId.coverageAtomicTexture ImageLayout.transferDstOptimal
       ImageLayout.general 0 1]
  else []

/-- The setup recorded inside the main render pass before the draw-list loop
(pls_render_context_vulkan_impl.cpp lines 2308-2492): viewport and scissor,
the per-flush descriptor set with its seven update calls, the PLS
input-attachment descriptor set with its three update calls (plus the
scratch-color plane under rasterOrdering), and the single
`vkCmdBindDescriptorSets` for all four sets. -/
def mainPassSetupCmds (desc : FlushDescriptor) : List Cmd :=
  [Cmd.setViewport, Cmd.setScissor,
   Cmd.allocateDescriptorSet DescriptorSetLayoutId.perFlushLayout,
   Cmd.updateDescriptorSets,
   Cmd.updateDescriptorSets,
   Cmd.updateDescriptorSets,
   Cmd.updateDescriptorSets,
   Cmd.updateDescriptorSets,
   Cmd.updateDescriptorSets,
   Cmd.updateDescriptorSets,
   Cmd.allocateDescriptorSet DescriptorSetLayoutId.plsLayout,
   Cmd.updateDescriptorSets,
   Cmd.updateDescriptorSets,
   Cmd.updateDescriptorSets]
  ++ (if desc.interlockMode = InterlockMode.rasterOrdering then [Cmd.updateDescriptorSets] else [])
  ++ [Cmd.bindDescriptorSets 0 4]

/-- `PLSRenderContextVulkanImpl::flush`
(pls_render_context_vulkan_impl.cpp lines 1977-2712).  `depthStencil` returns
immediately (`TODO: support MSAA`).  Otherwise: obtain a descriptor-set pool;
gradient pass and simple-ramp upload with their layout transitions;
tessellation pass; pending image-texture uploads (null texture first, then
the draw list); render-target synchronize; lazy draw-pipeline-layout and
render-pass creation keyed on the interlock mode and the render-pass variant;
the main-pass framebuffer; in atomics mode the out-of-pass atomic-coverage
clear, and the pending post-clear barrier flag set when the color load action
is `clear` (the advanced-blend refinement is compiled out with `#if 0` in the
source, so the flag does not consult the shader features); the main render
pass with its setup, the draw-list loop and `vkCmdEndRenderPass`; finally the
frame completion fence is parked on the current buffer-ring slot when this is
the final flush of the frame. -/
def flush (C : PLSConstants) (s : EngineState) (rt : RenderTargetState)
    (desc : FlushDescriptor) : EngineState × RenderTargetState × List Cmd :=
  if desc.interlockMode = InterlockMode.depthStencil then (s, rt, [])
  else
    let poolR := makeDescriptorSetPool s
    let s1 := poolR.1
    let nullSync := nullTextureSyncCmds s1
    let s2 := if s1.nullImageTexture.hasUpdates then
        { s1 with nullImageTexture := { s1.nullImageTexture with hasUpdates := false } }
      else s1
    let texR := syncDrawListTextures s2.textures desc.drawList
    let s3 := { s2 with textures := texR.1 }
    let rtR := renderTargetSynchronize rt desc.interlockMode
    let renderPassVariantIdx :=
      DrawPipelineLayout.RenderPassVariantIdx rt.framebufferFormat desc.colorLoadAction
    let s4 := if s3.drawPipelineLayoutCreated desc.interlockMode then s3
      else { s3 with drawPipelineLayoutCreated :=
        Function.update s3.drawPipelineLayoutCreated desc.interlockMode true }
    let s5 := if s4.drawRenderPassCreated (desc.interlockMode, renderPassVariantIdx) then s4
      else { s4 with drawRenderPassCreated :=
        Function.update s4.drawRenderPassCreated (desc.interlockMode, renderPassVariantIdx) true }
    let needsBarrierBeforeNextDraw :=
      decide (desc.interlockMode = InterlockMode.atomics) &&
        decide (desc.colorLoadAction = LoadAction.clear)
    let ctx : DrawPassContext :=
      ⟨desc.interlockMode, desc.combinedShaderFeatures, desc.wireframe, renderPassVariantIdx⟩
    let loopR := drawLoop C ctx s5 needsBarrierBeforeNextDraw 0 desc.drawList
    let s7 := if desc.isFinalFlushOfFrame then
        { loopR.1 with frameCompletionFences := (Function.update loopR.1.frameCompletionFences
            loopR.1.bufferRingIdx (some desc.frameCompletionFence)) }
      else loopR.1
    (s7, rtR.1,
     poolR.2
     ++ [Cmd.insertImageMemoryBarrier ImageId.gradientTexture ImageLayout.undefined
           ImageLayout.colorAttachmentOptimal 0 1]
     ++ complexGradPassCmds desc
     ++ [Cmd.insertImageMemoryBarrier ImageId.gradientTexture ImageLayout.colorAttachmentOptimal
           ImageLayout.transferDstOptimal 0 1]
     ++ simpleGradCopyCmds desc
     ++ [Cmd.insertImageMemoryBarrier ImageId.gradientTexture ImageLayout.transferDstOptimal
           ImageLayout.shaderReadOnlyOptimal 0 1,
         Cmd.insertImageMemoryBarrier ImageId.tessVertexTexture ImageLayout.undefined
           ImageLayout.colorAttachmentOptimal 0 1]
     ++ tessPassCmds C desc
     ++ [Cmd.insertImageMemoryBarrier ImageId.tessVertexTexture ImageLayout.colorAttachmentOptimal
           ImageLayout.shaderReadOnlyOptimal 0 1]
     ++ nullSync
     ++ texR.2
     ++ rtR.2
     ++ [Cmd.makeFramebuffer]
     ++ atomicCoverageClearCmds desc
     ++ (Cmd.beginRenderPass (RenderPassId.drawPass renderPassVariantIdx) ::
          (mainPassSetupCmds desc ++ loopR.2.2.2 ++ [Cmd.endRenderPass])))

/-- `PLSRenderContextVulkanImpl::prepareToMapBuffers`
(pls_render_context_vulkan_impl.cpp lines 1753-1783): advance the frame index,
advance the buffer-ring slot by one modulo `kBufferRingSize`, wait on (and
clear) the completion fence of the slot about to be reused if it is still
pending, purge the expired front of the resource purgatory, then synchronize
the sizes of the ten ring buffers at the new slot. -/
def prepareToMapBuffers (C : PLSConstants) (s : EngineState) : EngineState × List Cmd :=
  let currentFrameIdx := s.currentFrameIdx + 1
  let bufferRingIdx := (s.bufferRingIdx + 1) % C.kBufferRingSize
  let fenceR : (Nat → Option Nat) × List Cmd :=
    match s.frameCompletionFences bufferRingIdx with
    | some f => (Function.update s.frameCompletionFences bufferRingIdx none, [Cmd.fenceWait f])
    | none => (s.frameCompletionFences, [])
  let resourcePurgatory := s.resourcePurgatory.dropWhile fun e => e ≤ currentFrameIdx
  ({ s with
      currentFrameIdx := currentFrameIdx,
      bufferRingIdx := bufferRingIdx,
      frameCompletionFences := fenceR.1,
      resourcePurgatory := resourcePurgatory },
   fenceR.2 ++
     [Cmd.synchronizeBufferSize BufferId.flushUniform bufferRingIdx,
      Cmd.synchronizeBufferSize BufferId.imageDrawUniform bufferRingIdx,
      Cmd.synchronizeBufferSize BufferId.pathBuffer bufferRingIdx,
      Cmd.synchronizeBufferSize BufferId.paintBuffer bufferRingIdx,
      Cmd.synchronizeBufferSize BufferId.paintAuxBuffer bufferRingIdx,
      Cmd.synchronizeBufferSize BufferId.contourBuffer bufferRingIdx,
      Cmd.synchronizeBufferSize BufferId.simpleColorRamps bufferRingIdx,
      Cmd.synchronizeBufferSize BufferId.gradSpan bufferRingIdx,
      Cmd.synchronizeBufferSize BufferId.tessSpan bufferRingIdx,
      Cmd.synchronizeBufferSize BufferId.triangle bufferRingIdx])

/-- A sequence of flushes within one frame (no `prepareToMapBuffers` in
between), threading the engine and render-target state and concatenating the
recorded traces. -/
def runFlushes (C : PLSConstants) :
    EngineState → RenderTargetState → List FlushDescriptor →
      EngineState × RenderTargetState × List Cmd
  | s, rt, [] => (s, rt, [])
  | s, rt, d :: ds =>
    let r := flush C s rt d
    let r2 := runFlushes C r.1 r.2.1 ds
    (r2.1, r2.2.1, r.2.2 ++ r2.2.2)

/-! ## Sample values used by the closed witnesses -/

/-- Sample `pls.hpp` constants for closed witnesses. -/
def sampleConstants : PLSConstants where
  kBufferRingSize := 3
  patchIndexCount := fun _ => 0
  patchBaseIndex := fun _ => 0
  tessSpanIndicesCount := 6
  imageRectIndicesCount := 6
  shaderUniqueKey := fun _ _ _ => 0
  kDrawPipelineOptionCount := 1
  enableAdvancedBlendMask := 1

/-- Sample engine state for closed witnesses. -/
def sampleEngineState : EngineState where
  currentFrameIdx := 0
  bufferRingIdx := 0
  frameCompletionFences := fun _ => none
  nullImageTexture := ⟨false, 1, none⟩
  textures := fun _ => ⟨false, 1, none⟩
  drawPipelineLayoutCreated := fun _ => false
  drawRenderPassCreated := fun _ => false
  drawPipelineKeys := []
  descriptorSetPoolPool := []
  resourcePurgatory := []
  capFillModeNonSolid := false

/-- Sample render target for closed witnesses. -/
def sampleRenderTarget : RenderTargetState where
  framebufferFormat := VkFormat.R8G8B8A8_UNORM
  coverageTextureCreated := false
  clipTextureCreated := false
  scratchColorTextureCreated := false
  coverageAtomicTextureCreated := false

/-- A sample flush descriptor; the fields that vary per claim are overridden
at each use site. -/
def sampleFlushDescriptor : FlushDescriptor where
  interlockMode := InterlockMode.atomics
  colorLoadAction := LoadAction.clear
  combinedShaderFeatures := 1
  clearColor := 0
  coverageClearValue := 0
  drawList := []
  firstPath := 0
  firstContour := 0
  firstPaint := 0
  firstPaintAux := 0
  firstTessVertexSpan := 0
  firstComplexGradSpan := 0
  tessVertexSpanCount := 0
  tessDataHeight := 0
  complexGradSpanCount := 0
  complexGradRowsTop := 0
  complexGradRowsHeight := 0
  simpleGradDataOffsetInBytes := 0
  simpleGradTexelsWidth := 0
  simpleGradTexelsHeight := 0
  flushUniformDataOffsetInBytes := 0
  wireframe := false
  isFinalFlushOfFrame := false
  frameCompletionFence := 0

/-- A sample batch; fields overridden at each use site. -/
def sampleBatch : DrawBatch where
  drawType := DrawType.midpointFanPatches
  elementCount := 1
  baseElement := 0
  imageTexture := none
  shaderFeatures := 0
  needsBarrier := false
  imageDrawDataOffset := 0
  vertexBuffer := 0
  uvBuffer := 0
  indexBuffer := 0

/-! ## C2: depthStencil flushes are silent no-ops -/

/-- C2: a flush whose `interlockMode` is `depthStencil` returns without
recording any GPU command or host event (in particular without allocating a
descriptor pool) and without modifying the engine or render-target state. -/
theorem flush_depthStencil_silent_noop (C : PLSConstants) (s : EngineState)
    (rt : RenderTargetState) (desc : FlushDescriptor)
    (h : desc.interlockMode = InterlockMode.depthStencil) :
    flush C s rt desc = (s, rt, []) := by
  unfold flush
  rw [h]
  simp

/-- Witness for C2 at a concrete state and descriptor. -/
theorem flush_depthStencil_silent_noop_witness :
    flush sampleConstants sampleEngineState sampleRenderTarget
        ({ sampleFlushDescriptor with interlockMode := InterlockMode.depthStencil }) =
      (sampleEngineState, sampleRenderTarget, []) :=
  flush_depthStencil_silent_noop sampleConstants sampleEngineState sampleRenderTarget
    ({ sampleFlushDescriptor with interlockMode := InterlockMode.depthStencil }) rfl

/-! ## C5: prepareToMapBuffers ring advance and fence wait -/

/-- C5: `prepareToMapBuffers` advances the buffer-ring slot index by exactly
one modulo `kBufferRingSize`; when the slot about to be reused still has a
pending frame-completion fence, the very first recorded event is the wait on
that fence, so it precedes every buffer synchronization of that slot; and
every ring-buffer size synchronization it performs targets the new slot. -/
theorem prepareToMapBuffers_spec (C : PLSConstants) (s : EngineState) :
    (prepareToMapBuffers C s).1.bufferRingIdx = (s.bufferRingIdx + 1) % C.kBufferRingSize
    ∧ (∀ f, s.frameCompletionFences ((s.bufferRingIdx + 1) % C.kBufferRingSize) = some f →
        (prepareToMapBuffers C s).2.head? = some (Cmd.fenceWait f))
    ∧ (∀ b slot, Cmd.synchronizeBufferSize b slot ∈ (prepareToMapBuffers C s).2 →
        slot = (s.bufferRingIdx + 1) % C.kBufferRingSize) := by
  rcases hf : s.frameCompletionFences ((s.bufferRingIdx + 1) % C.kBufferRingSize) with _ | f
  · refine ⟨?_, ?_, ?_⟩
    · simp [prepareToMapBuffers, hf]
    · intro f hff
      exact absurd hff (by simp)
    · intro b slot hmem
      simp only [prepareToMapBuffers, hf] at hmem
      simp at hmem
      tauto
  · refine ⟨?_, ?_, ?_⟩
    · simp [prepareToMapBuffers, hf]
    · intro f' hff
      cases hff
      simp [prepareToMapBuffers, hf]
    · intro b slot hmem
      simp only [prepareToMapBuffers, hf] at hmem
      simp at hmem
      tauto

/-- A concrete engine state whose next ring slot (slot 1) has pending
fence 7, for the C5 witness. -/
def fencedEngineState : EngineState :=
  { sampleEngineState with frameCompletionFences := (Function.update (fun _ => none) 1 (some 7)) }

/-- Witness for C5 at `fencedEngineState`. -/
theorem prepareToMapBuffers_spec_witness :
    (prepareToMapBuffers sampleConstants fencedEngineState).1.bufferRingIdx =
      (fencedEngineState.bufferRingIdx + 1) % sampleConstants.kBufferRingSize
    ∧ (prepareToMapBuffers sampleConstants fencedEngineState).2.head? =
        some (Cmd.fenceWait 7) :=
  ⟨(prepareToMapBuffers_spec sampleConstants fencedEngineState).1,
   (prepareToMapBuffers_spec sampleConstants fencedEngineState).2.1 7
     (by simp [fencedEngineState, sampleEngineState, sampleConstants, Function.update])⟩

/-! ## List infrastructure for trace reasoning -/

/-- `takeWhile` passes through a prefix whose elements all satisfy the
predicate. -/
theorem takeWhile_append_all {p : Cmd → Bool} {l1 l2 : List Cmd}
    (h : ∀ c ∈ l1, p c = true) :
    (l1 ++ l2).takeWhile p = l1 ++ l2.takeWhile p := by
  induction l1 with
  | nil => simp
  | cons a l ih =>
    have ha : p a = true := h a (List.mem_cons_self a l)
    simp [List.takeWhile_cons, ha, ih fun c hc => h c (List.mem_cons_of_mem a hc)]

/-- An element of the suffix's `takeWhile` is in the `takeWhile` of the whole
list when the prefix satisfies the predicate throughout. -/
theorem mem_takeWhile_append {p : Cmd → Bool} {l1 l2 : List Cmd} {c : Cmd}
    (h : ∀ x ∈ l1, p x = true) (hc : c ∈ l2.takeWhile p) :
    c ∈ (l1 ++ l2).takeWhile p := by
  rw [takeWhile_append_all h]
  exact List.mem_append_right _ hc

/-- A satisfying element of an all-satisfying prefix is in the `takeWhile`. -/
theorem mem_takeWhile_of_mem_all {p : Cmd → Bool} {l1 l2 : List Cmd} {c : Cmd}
    (hmem : c ∈ l1) (h : ∀ x ∈ l1, p x = true) :
    c ∈ (l1 ++ l2).takeWhile p := by
  rw [takeWhile_append_all h]
  exact List.mem_append_left _ hmem

/-- Number of draw commands in a trace. -/
def drawCount (cmds : List Cmd) : Nat := cmds.countP Cmd.isDraw

/-- The strict suffix of a trace after its `n`-th draw command. -/
def dropAfterDraws : Nat → List Cmd → List Cmd
  | 0, l => l
  | _ + 1, [] => []
  | n + 1, c :: l => if c.isDraw then dropAfterDraws n l else dropAfterDraws (n + 1) l

/-- Dropping through a prefix with `drawCount A` draws plus one further draw
leaves exactly the remainder. -/
theorem dropAfterDraws_append (A : List Cmd) (k : Nat) (c : Cmd) (B : List Cmd)
    (hc : c.isDraw = true) :
    dropAfterDraws (drawCount A + k + 1) (A ++ c :: B) = dropAfterDraws k B := by
  induction A with
  | nil =>
    simp only [drawCount, List.countP_nil, List.nil_append, Nat.zero_add]
    simp [dropAfterDraws, hc]
  | cons a A ih =>
    by_cases ha : a.isDraw
    · have hcnt : drawCount (a :: A) + k + 1 = (drawCount A + k + 1) + 1 := by
        simp [drawCount, List.countP_cons, ha]
        omega
      rw [hcnt]
      show dropAfterDraws ((drawCount A + k + 1) + 1) (a :: (A ++ c :: B)) = dropAfterDraws k B
      rw [dropAfterDraws, if_pos ha]
      exact ih
    · have hcnt : drawCount (a :: A) + k + 1 = (drawCount A + k + 1) := by
        simp [drawCount, List.countP_cons, ha]
      rw [hcnt]
      have hsucc : ∃ n, drawCount A + k + 1 = n + 1 := ⟨drawCount A + k, rfl⟩
      obtain ⟨n, hn⟩ := hsucc
      rw [hn]
      show dropAfterDraws (n + 1) (a :: (A ++ c :: B)) = dropAfterDraws k B
      rw [dropAfterDraws, if_neg (by simp [ha])]
      rw [← hn]
      exact ih

/-! ## Per-segment lemmas about the flush trace -/

/-- `makeDescriptorSetPool` records exactly one pool event. -/
theorem makeDescriptorSetPool_cmds (s : EngineState) :
    (makeDescriptorSetPool s).2 = [Cmd.reuseDescriptorPool]
    ∨ (makeDescriptorSetPool s).2 = [Cmd.createDescriptorPool] := by
  unfold makeDescriptorSetPool
  rcases s.descriptorSetPoolPool with _ | ⟨front, rest⟩
  · simp
  · by_cases h : front ≤ s.currentFrameIdx <;> simp [h]

/-- `makeDescriptorSetPool` only touches the descriptor-set pool free list. -/
theorem makeDescriptorSetPool_state (s : EngineState) :
    ∃ pool, (makeDescriptorSetPool s).1 = { s with descriptorSetPoolPool := pool } := by
  unfold makeDescriptorSetPool
  rcases s.descriptorSetPoolPool with _ | ⟨front, rest⟩
  · exact ⟨s.descriptorSetPoolPool, rfl⟩
  · by_cases h : front ≤ s.currentFrameIdx
    · exact ⟨rest, by simp [h]⟩
    · exact ⟨s.descriptorSetPoolPool, by simp [h]⟩

/-- The commands of the image-texture part are all non-draw and contain no
inter-draw memory barrier. -/
theorem imagePart_cmds_flags (s : EngineState) (cnt texId : Nat) :
    ∀ c ∈ (imagePart s cnt texId).2.2, c.isDraw = false ∧ c ≠ memBarrierCmd := by
  unfold imagePart
  by_cases h1 : (s.textures texId).descriptorSetFrameIdx ≠ some s.currentFrameIdx
  · rw [if_pos h1]
    by_cases h2 : descriptor_pool_limits.kMaxImageTextureUpdates ≤ cnt
    · rw [if_pos h2]
      intro c hc
      simp only [List.mem_append] at hc
      rcases hc with hc | hc
      · rcases makeDescriptorSetPool_cmds s with hp | hp <;> rw [hp] at hc <;>
          simp at hc <;> subst hc <;> exact ⟨rfl, by simp [memBarrierCmd]⟩
      · simp at hc
        rcases hc with hc | hc <;> subst hc <;> exact ⟨rfl, by simp [memBarrierCmd]⟩
    · rw [if_neg h2]
      intro c hc
      simp at hc
      rcases hc with hc | hc <;> subst hc <;> exact ⟨rfl, by simp [memBarrierCmd]⟩
  · rw [if_neg h1]
    intro c hc
    simp at hc
    subst hc
    exact ⟨rfl, by simp [memBarrierCmd]⟩

/-- The draw switch for a reachable draw type is a run of non-draw buffer
binds followed by exactly one draw command. -/
theorem drawTypeCmds_reachable (C : PLSConstants) (b : DrawBatch)
    (h : b.drawType.reachableInVulkanFlush = true) :
    ∃ pre dc, drawTypeCmds C b = pre ++ [dc] ∧ dc.isDraw = true
      ∧ ∀ c ∈ pre, c.isDraw = false := by
  cases hb : b.drawType
  case midpointFanPatches =>
    simp only [drawTypeCmds, hb]
    exact ⟨[_, _], _, rfl, rfl, by simp [Cmd.isDraw]⟩
  case outerCurvePatches =>
    simp only [drawTypeCmds, hb]
    exact ⟨[_, _], _, rfl, rfl, by simp [Cmd.isDraw]⟩
  case interiorTriangulation =>
    simp only [drawTypeCmds, hb]
    exact ⟨[_], _, rfl, rfl, by simp [Cmd.isDraw]⟩
  case imageRect =>
    simp only [drawTypeCmds, hb]
    exact ⟨[_, _], _, rfl, rfl, by simp [Cmd.isDraw]⟩
  case imageMesh =>
    simp only [drawTypeCmds, hb]
    exact ⟨[_, _, _], _, rfl, rfl, by simp [Cmd.isDraw]⟩
  case plsAtomicResolve =>
    simp only [drawTypeCmds, hb]
    exact ⟨[], _, rfl, rfl, by simp⟩
  case plsAtomicInitialize => rw [hb] at h; exact absurd h (by simp [DrawType.reachableInVulkanFlush])
  case stencilClipReset => rw [hb] at h; exact absurd h (by simp [DrawType.reachableInVulkanFlush])

/-- The draw switch never records the inter-draw memory barrier. -/
theorem memBarrier_not_mem_drawTypeCmds (C : PLSConstants) (b : DrawBatch) :
    memBarrierCmd ∉ drawTypeCmds C b := by
  cases hb : b.drawType <;> simp [drawTypeCmds, hb, memBarrierCmd]

/-! ## Lemmas about the draw-list loop body -/

/-- C10-part: a batch with `elementCount == 0` is skipped entirely — the
`continue` fires before any binding, pipeline lookup, barrier or draw, so
neither the state, the pending-barrier flag, the update count nor the trace
change. -/
theorem processBatch_zero (C : PLSConstants) (ctx : DrawPassContext) (s : EngineState)
    (p : Bool) (cnt : Nat) (b : DrawBatch) (h : b.elementCount = 0) :
    processBatch C ctx s p cnt b = (s, p, cnt, []) := by
  unfold processBatch
  rw [if_pos h]

/-- The image-texture commands of a batch (empty for a null image texture). -/
def imageCmdsOf (s : EngineState) (cnt : Nat) (b : DrawBatch) : List Cmd :=
  match b.imageTexture with
  | none => []
  | some texId => (imagePart s cnt texId).2.2

/-- The image-texture commands are non-draw and contain no inter-draw memory
barrier. -/
theorem imageCmdsOf_flags (s : EngineState) (cnt : Nat) (b : DrawBatch) :
    ∀ c ∈ imageCmdsOf s cnt b, c.isDraw = false ∧ c ≠ memBarrierCmd := by
  unfold imageCmdsOf
  rcases b.imageTexture with _ | texId
  · simp
  · exact imagePart_cmds_flags s cnt texId

/-- Trace of a non-skipped batch: the image-texture commands, the pipeline
bind, the pending barrier if one is due, then the draw switch. -/
theorem processBatch_nonzero_cmds (C : PLSConstants) (ctx : DrawPassContext) (s : EngineState)
    (p : Bool) (cnt : Nat) (b : DrawBatch) (h : b.elementCount ≠ 0) :
    (processBatch C ctx s p cnt b).2.2.2 =
      imageCmdsOf s cnt b ++
        Cmd.bindPipeline (PipelineId.drawPipeline (pipelineKeyOf C ctx s.capFillModeNonSolid b)) ::
          ((if p then [memBarrierCmd] else []) ++ drawTypeCmds C b) := by
  unfold processBatch imageCmdsOf
  rw [if_neg h]
  rcases b.imageTexture with _ | texId <;> simp

/-- The pending-barrier flag after a non-skipped batch is
`interlockMode == atomics && batch.needsBarrier`. -/
theorem processBatch_nonzero_pending (C : PLSConstants) (ctx : DrawPassContext) (s : EngineState)
    (p : Bool) (cnt : Nat) (b : DrawBatch) (h : b.elementCount ≠ 0) :
    (processBatch C ctx s p cnt b).2.1 =
      (decide (ctx.interlockMode = InterlockMode.atomics) && b.needsBarrier) := by
  unfold processBatch
  rw [if_neg h]

/-- When the pending-barrier flag is set, a non-skipped batch records the
memory barrier before its draw: the barrier is in the largest draw-free prefix
of the batch's trace. -/
theorem processBatch_barrier_before_draw (C : PLSConstants) (ctx : DrawPassContext)
    (s : EngineState) (cnt : Nat) (b : DrawBatch) (h : b.elementCount ≠ 0) :
    memBarrierCmd ∈ ((processBatch C ctx s true cnt b).2.2.2.takeWhile fun c => !c.isDraw) := by
  rw [processBatch_nonzero_cmds C ctx s true cnt b h]
  have hassoc :
      imageCmdsOf s cnt b ++
        Cmd.bindPipeline (PipelineId.drawPipeline (pipelineKeyOf C ctx s.capFillModeNonSolid b)) ::
          ((if true then [memBarrierCmd] else []) ++ drawTypeCmds C b) =
      (imageCmdsOf s cnt b ++
        [Cmd.bindPipeline (PipelineId.drawPipeline (pipelineKeyOf C ctx s.capFillModeNonSolid b)),
         memBarrierCmd]) ++ drawTypeCmds C b := by
    simp
  rw [hassoc]
  apply mem_takeWhile_of_mem_all
  · simp
  · intro x hx
    simp only [List.mem_append] at hx
    rcases hx with hx | hx
    · simp [(imageCmdsOf_flags s cnt b x hx).1]
    · simp at hx
      rcases hx with hx | hx <;> subst hx <;> simp [Cmd.isDraw, memBarrierCmd]

/-- A batch whose pending flag is clear records no memory barrier. -/
theorem processBatch_no_barrier (C : PLSConstants) (ctx : DrawPassContext) (s : EngineState)
    (cnt : Nat) (b : DrawBatch) :
    memBarrierCmd ∉ (processBatch C ctx s false cnt b).2.2.2 := by
  by_cases h : b.elementCount = 0
  · rw [processBatch_zero C ctx s false cnt b h]
    simp
  · rw [processBatch_nonzero_cmds C ctx s false cnt b h]
    intro hmem
    simp only [List.mem_append, List.mem_cons, if_neg Bool.false_ne_true] at hmem
    rcases hmem with hmem | hmem | hmem
    · exact (imageCmdsOf_flags s cnt b _ hmem).2 rfl
    · exact absurd hmem (by simp [memBarrierCmd])
    · simp at hmem
      exact memBarrier_not_mem_drawTypeCmds C b hmem

/-- Trace split of a non-skipped batch with a reachable draw type: a draw-free
prefix (containing the pending barrier when one is due) followed by exactly
one draw. -/
theorem processBatch_nonzero_split (C : PLSConstants) (ctx : DrawPassContext) (s : EngineState)
    (p : Bool) (cnt : Nat) (b : DrawBatch) (h : b.elementCount ≠ 0)
    (hr : b.drawType.reachableInVulkanFlush = true) :
    ∃ pre dc, (processBatch C ctx s p cnt b).2.2.2 = pre ++ [dc] ∧ dc.isDraw = true
      ∧ (∀ c ∈ pre, c.isDraw = false) ∧ (p = true → memBarrierCmd ∈ pre) := by
  obtain ⟨dpre, dc, hdt, hdc, hdpre⟩ := drawTypeCmds_reachable C b hr
  refine ⟨imageCmdsOf s cnt b ++
      Cmd.bindPipeline (PipelineId.drawPipeline (pipelineKeyOf C ctx s.capFillModeNonSolid b)) ::
        ((if p then [memBarrierCmd] else []) ++ dpre), dc, ?_, hdc, ?_, ?_⟩
  · rw [processBatch_nonzero_cmds C ctx s p cnt b h, hdt]
    simp
  · intro c hc
    simp only [List.mem_append, List.mem_cons] at hc
    rcases hc with hc | hc | hc
    · exact (imageCmdsOf_flags s cnt b c hc).1
    · subst hc; rfl
    · rcases hc with hc | hc
      · rcases p with _ | _
        · simp at hc
        · simp at hc
          subst hc
          rfl
      · exact hdpre c hc
  · intro hp
    subst hp
    simp

/-- A non-skipped batch with a reachable draw type records exactly one draw
command. -/
theorem processBatch_nonzero_drawCount (C : PLSConstants) (ctx : DrawPassContext)
    (s : EngineState) (p : Bool) (cnt : Nat) (b : DrawBatch) (h : b.elementCount ≠ 0)
    (hr : b.drawType.reachableInVulkanFlush = true) :
    drawCount (processBatch C ctx s p cnt b).2.2.2 = 1 := by
  obtain ⟨pre, dc, hcmds, hdc, hpre, -⟩ := processBatch_nonzero_split C ctx s p cnt b h hr
  rw [hcmds]
  unfold drawCount
  rw [List.countP_append]
  have h0 : pre.countP Cmd.isDraw = 0 := by
    rw [List.countP_eq_zero]
    intro a ha
    simp [hpre a ha]
  simp [h0, hdc]

/-! ## Lemmas about the draw-list loop -/

/-- A run of skipped batches leaves the loop state untouched and records
nothing. -/
theorem drawLoop_allZero (C : PLSConstants) (ctx : DrawPassContext) (s : EngineState)
    (p : Bool) (cnt : Nat) (bs : List DrawBatch) (h : ∀ b ∈ bs, b.elementCount = 0) :
    drawLoop C ctx s p cnt bs = (s, p, cnt, []) := by
  induction bs with
  | nil => rfl
  | cons b rest ih =>
    rw [drawLoop, processBatch_zero C ctx s p cnt b (h b (List.mem_cons_self b rest))]
    rw [ih fun x hx => h x (List.mem_cons_of_mem b hx)]
    simp

/-- The loop over a concatenation is the loop over the first part followed by
the loop over the second from the resulting state. -/
theorem drawLoop_append (C : PLSConstants) (ctx : DrawPassContext) (s : EngineState)
    (p : Bool) (cnt : Nat) (xs ys : List DrawBatch) :
    drawLoop C ctx s p cnt (xs ++ ys) =
      ((drawLoop C ctx (drawLoop C ctx s p cnt xs).1 (drawLoop C ctx s p cnt xs).2.1
          (drawLoop C ctx s p cnt xs).2.2.1 ys).1,
       (drawLoop C ctx (drawLoop C ctx s p cnt xs).1 (drawLoop C ctx s p cnt xs).2.1
          (drawLoop C ctx s p cnt xs).2.2.1 ys).2.1,
       (drawLoop C ctx (drawLoop C ctx s p cnt xs).1 (drawLoop C ctx s p cnt xs).2.1
          (drawLoop C ctx s p cnt xs).2.2.1 ys).2.2.1,
       (drawLoop C ctx s p cnt xs).2.2.2 ++
         (drawLoop C ctx (drawLoop C ctx s p cnt xs).1 (drawLoop C ctx s p cnt xs).2.1
            (drawLoop C ctx s p cnt xs).2.2.1 ys).2.2.2) := by
  induction xs generalizing s p cnt with
  | nil => simp [drawLoop]
  | cons b rest ih =>
    simp only [List.cons_append, drawLoop, List.append_eq]
    rw [ih]
    simp

/-- Membership in a prefix's `takeWhile` survives appending a suffix. -/
theorem mem_takeWhile_append_left {p : Cmd → Bool} {l1 l2 : List Cmd} {c : Cmd}
    (hc : c ∈ l1.takeWhile p) : c ∈ (l1 ++ l2).takeWhile p := by
  induction l1 with
  | nil => simp at hc
  | cons a l ih =>
    by_cases hp : p a
    · rw [List.takeWhile_cons, if_pos hp] at hc
      rw [List.cons_append, List.takeWhile_cons, if_pos hp]
      rcases List.mem_cons.mp hc with h | h
      · exact h ▸ List.mem_cons_self _ _
      · exact List.mem_cons_of_mem _ (ih h)
    · rw [List.takeWhile_cons, if_neg hp] at hc
      simp at hc

/-- With the pending-barrier flag set, the loop records the memory barrier
before its first draw, as soon as any batch actually draws. -/
theorem drawLoop_pending_barrier_first (C : PLSConstants) (ctx : DrawPassContext)
    (s : EngineState) (cnt : Nat) (bs : List DrawBatch)
    (h : ∃ b ∈ bs, b.elementCount ≠ 0) :
    memBarrierCmd ∈ ((drawLoop C ctx s true cnt bs).2.2.2.takeWhile fun c => !c.isDraw) := by
  induction bs generalizing s cnt with
  | nil => simp at h
  | cons b rest ih =>
    by_cases hb : b.elementCount = 0
    · rw [drawLoop, processBatch_zero C ctx s true cnt b hb]
      simp only
      have hrest : ∃ x ∈ rest, x.elementCount ≠ 0 := by
        rcases h with ⟨x, hx, hxe⟩
        rcases List.mem_cons.mp hx with hx | hx
        · subst hx; exact absurd hb hxe
        · exact ⟨x, hx, hxe⟩
      simpa using ih _ _ hrest
    · rw [drawLoop]
      simp only
      exact mem_takeWhile_append_left (processBatch_barrier_before_draw C ctx s cnt b hb)

/-- With a clear pending flag, the loop in a non-atomics flush never records
the inter-draw memory barrier. -/
theorem drawLoop_no_barrier (C : PLSConstants) (ctx : DrawPassContext) (s : EngineState)
    (cnt : Nat) (bs : List DrawBatch) (hmode : ctx.interlockMode ≠ InterlockMode.atomics) :
    memBarrierCmd ∉ (drawLoop C ctx s false cnt bs).2.2.2 := by
  induction bs generalizing s cnt with
  | nil => simp [drawLoop]
  | cons b rest ih =>
    have hpend : (processBatch C ctx s false cnt b).2.1 = false := by
      by_cases hb : b.elementCount = 0
      · rw [processBatch_zero C ctx s false cnt b hb]
      · rw [processBatch_nonzero_pending C ctx s false cnt b hb]
        simp [hmode]
    rw [drawLoop]
    simp only [List.mem_append, not_or]
    constructor
    · exact processBatch_no_barrier C ctx s cnt b
    · rw [hpend]
      exact ih _ _

/-- Whether a batch actually draws (`elementCount != 0`). -/
def nonzeroBatch (b : DrawBatch) : Bool := decide (b.elementCount ≠ 0)

/-- When every drawing batch has a reachable draw type, the loop records
exactly one draw command per drawing batch. -/
theorem drawLoop_drawCount (C : PLSConstants) (ctx : DrawPassContext) (s : EngineState)
    (p : Bool) (cnt : Nat) (bs : List DrawBatch)
    (hr : ∀ b ∈ bs, b.elementCount ≠ 0 → b.drawType.reachableInVulkanFlush = true) :
    drawCount (drawLoop C ctx s p cnt bs).2.2.2 = bs.countP nonzeroBatch := by
  induction bs generalizing s p cnt with
  | nil => simp [drawLoop, drawCount]
  | cons b rest ih =>
    rw [drawLoop]
    simp only
    rw [show drawCount ((processBatch C ctx s p cnt b).2.2.2 ++
        (drawLoop C ctx (processBatch C ctx s p cnt b).1 (processBatch C ctx s p cnt b).2.1
          (processBatch C ctx s p cnt b).2.2.1 rest).2.2.2) =
      drawCount (processBatch C ctx s p cnt b).2.2.2 +
        drawCount (drawLoop C ctx (processBatch C ctx s p cnt b).1
          (processBatch C ctx s p cnt b).2.1 (processBatch C ctx s p cnt b).2.2.1 rest).2.2.2
      from List.countP_append _ _ _]
    by_cases hb : b.elementCount = 0
    · rw [processBatch_zero C ctx s p cnt b hb]
      have hnz : nonzeroBatch b = false := by simp [nonzeroBatch, hb]
      rw [List.countP_cons, hnz]
      simpa [drawCount] using ih s p cnt fun x hx => hr x (List.mem_cons_of_mem b hx)
    · rw [processBatch_nonzero_drawCount C ctx s p cnt b hb
        (hr b (List.mem_cons_self b rest) hb)]
      have hnz : nonzeroBatch b = true := by simp [nonzeroBatch, hb]
      rw [List.countP_cons, hnz]
      have := ih (processBatch C ctx s p cnt b).1 (processBatch C ctx s p cnt b).2.1
        (processBatch C ctx s p cnt b).2.2.1 fun x hx => hr x (List.mem_cons_of_mem b hx)
      rw [if_pos rfl]
      omega

/-- The setup recorded inside the main render pass before the loop contains
no draw command. -/
theorem mainPassSetupCmds_nonDraw (desc : FlushDescriptor) :
    ∀ c ∈ mainPassSetupCmds desc, (!c.isDraw) = true := by
  intro c hc
  by_cases hmode : desc.interlockMode = InterlockMode.rasterOrdering <;>
    simp [mainPassSetupCmds, hmode] at hc <;>
    rcases hc with rfl | rfl | rfl | rfl | rfl | rfl | rfl | rfl | rfl | rfl | rfl | rfl | rfl |
      rfl | rfl | rfl | rfl <;>
    rfl

/-- The trace of a non-depthStencil flush splits at the main render pass
begin: some prefix, then `vkCmdBeginRenderPass` on the render-pass variant of
the target format and load action, then the main-pass setup, the draw-list
loop (started with pending barrier flag `atomics && colorLoadAction ==
clear`) and `vkCmdEndRenderPass`. -/
theorem flush_cmds_decomp (C : PLSConstants) (s : EngineState) (rt : RenderTargetState)
    (desc : FlushDescriptor) (h : ¬(desc.interlockMode = InterlockMode.depthStencil)) :
    ∃ pre s', (flush C s rt desc).2.2 = pre ++
      Cmd.beginRenderPass (RenderPassId.drawPass
        (DrawPipelineLayout.RenderPassVariantIdx rt.framebufferFormat desc.colorLoadAction)) ::
      (mainPassSetupCmds desc ++
        (drawLoop C ⟨desc.interlockMode, desc.combinedShaderFeatures, desc.wireframe,
            DrawPipelineLayout.RenderPassVariantIdx rt.framebufferFormat desc.colorLoadAction⟩
          s' (decide (desc.interlockMode = InterlockMode.atomics) &&
              decide (desc.colorLoadAction = LoadAction.clear)) 0 desc.drawList).2.2.2 ++
        [Cmd.endRenderPass]) := by
  unfold flush
  rw [if_neg h]
  exact ⟨_, _, rfl⟩

/-! ## C1: barrier between attachment clear and first draw (atomics) -/

/-- C1: in atomics mode with `colorLoadAction = clear` and advanced blend in
the combined shader features, the recorded trace has the main render pass
begin (whose `loadOp = CLEAR` performs the color attachment clear) followed,
before any draw command, by the color-attachment-write to
input-attachment-read memory barrier — provided the draw list draws at all.
(The source records this barrier for every `clear` load action: the
advanced-blend restriction is `#if 0`-d out, so the hypothesis is sound but
unused.) -/
theorem flush_atomics_clear_barrier_before_first_draw (C : PLSConstants) (s : EngineState)
    (rt : RenderTargetState) (desc : FlushDescriptor)
    (hmode : desc.interlockMode = InterlockMode.atomics)
    (hload : desc.colorLoadAction = LoadAction.clear)
    (hblend : desc.combinedShaderFeatures &&& C.enableAdvancedBlendMask ≠ 0)
    (hdraw : ∃ b ∈ desc.drawList, b.elementCount ≠ 0) :
    ∃ pre post, (flush C s rt desc).2.2 = pre ++
        Cmd.beginRenderPass (RenderPassId.drawPass
          (DrawPipelineLayout.RenderPassVariantIdx rt.framebufferFormat
            desc.colorLoadAction)) :: post
      ∧ memBarrierCmd ∈ (post.takeWhile fun c => !c.isDraw) := by
  have hnds : ¬(desc.interlockMode = InterlockMode.depthStencil) := by simp [hmode]
  obtain ⟨pre, s', hsplit⟩ := flush_cmds_decomp C s rt desc hnds
  have hpend : (decide (desc.interlockMode = InterlockMode.atomics) &&
      decide (desc.colorLoadAction = LoadAction.clear)) = true := by
    rw [hmode, hload]
    decide
  rw [hpend] at hsplit
  refine ⟨pre, _, hsplit, ?_⟩
  rw [List.append_assoc]
  apply mem_takeWhile_append (mainPassSetupCmds_nonDraw desc)
  exact mem_takeWhile_append_left (drawLoop_pending_barrier_first C _ s' 0 desc.drawList hdraw)

/-- Witness for C1: one batch with `elementCount = 1` in a clear/atomics
flush with advanced blend. -/
theorem flush_atomics_clear_barrier_before_first_draw_witness :
    ∃ pre post, (flush sampleConstants sampleEngineState sampleRenderTarget
        ({ sampleFlushDescriptor with drawList := [sampleBatch] })).2.2 = pre ++
        Cmd.beginRenderPass (RenderPassId.drawPass
          (DrawPipelineLayout.RenderPassVariantIdx sampleRenderTarget.framebufferFormat
            ({ sampleFlushDescriptor with drawList := [sampleBatch] }).colorLoadAction)) :: post
      ∧ memBarrierCmd ∈ (post.takeWhile fun c => !c.isDraw) :=
  flush_atomics_clear_barrier_before_first_draw sampleConstants sampleEngineState
    sampleRenderTarget ({ sampleFlushDescriptor with drawList := [sampleBatch] }) rfl rfl
    (by decide) ⟨sampleBatch, by simp, by decide⟩

/-! ## C10: zero-element batches are skipped; pending barriers are deferred -/

/-- C10: a `DrawBatch` with `elementCount = 0` is skipped entirely — no
pipeline lookup or bind, no buffer binds, no draw, no barrier, and no state
change, the pending-barrier flag included; and a pending barrier (flag set)
is deferred across such batches and recorded before the next draw that
actually happens. -/
theorem drawBatch_zero_elementCount_skipped :
    (∀ (C : PLSConstants) (ctx : DrawPassContext) (s : EngineState) (p : Bool) (cnt : Nat)
        (b : DrawBatch), b.elementCount = 0 → processBatch C ctx s p cnt b = (s, p, cnt, []))
    ∧ (∀ (C : PLSConstants) (ctx : DrawPassContext) (s : EngineState) (cnt : Nat)
        (bs : List DrawBatch), (∃ b ∈ bs, b.elementCount ≠ 0) →
        memBarrierCmd ∈ ((drawLoop C ctx s true cnt bs).2.2.2.takeWhile fun c => !c.isDraw)) :=
  ⟨processBatch_zero, drawLoop_pending_barrier_first⟩

/-- Witness for C10: a zero-element batch is a perfect no-op, and a pending
barrier fires before the draw of the next nonzero batch. -/
theorem drawBatch_zero_elementCount_skipped_witness :
    processBatch sampleConstants ⟨InterlockMode.atomics, 1, false, 0⟩ sampleEngineState true 0
        ({ sampleBatch with elementCount := 0 }) = (sampleEngineState, true, 0, [])
    ∧ memBarrierCmd ∈ ((drawLoop sampleConstants ⟨InterlockMode.atomics, 1, false, 0⟩
        sampleEngineState true 0
        [{ sampleBatch with elementCount := 0 }, sampleBatch]).2.2.2.takeWhile
          fun c => !c.isDraw) :=
  ⟨drawBatch_zero_elementCount_skipped.1 sampleConstants ⟨InterlockMode.atomics, 1, false, 0⟩
      sampleEngineState true 0 ({ sampleBatch with elementCount := 0 }) rfl,
   drawBatch_zero_elementCount_skipped.2 sampleConstants ⟨InterlockMode.atomics, 1, false, 0⟩
      sampleEngineState 0 [{ sampleBatch with elementCount := 0 }, sampleBatch]
      ⟨sampleBatch, by simp, by decide⟩⟩

/-! ## The flush outside the draw loop never records the inter-draw barrier -/

/-- The pool events are not the inter-draw barrier. -/
theorem memBarrier_not_mem_makeDescriptorSetPool (s : EngineState) :
    memBarrierCmd ∉ (makeDescriptorSetPool s).2 := by
  rcases makeDescriptorSetPool_cmds s with h | h <;> rw [h] <;> simp [memBarrierCmd]

/-- The gradient pass records no inter-draw barrier. -/
theorem memBarrier_not_mem_complexGrad (desc : FlushDescriptor) :
    memBarrierCmd ∉ complexGradPassCmds desc := by
  unfold complexGradPassCmds
  split_ifs <;> simp [memBarrierCmd]

/-- The simple-ramp upload records no inter-draw barrier. -/
theorem memBarrier_not_mem_simpleGrad (desc : FlushDescriptor) :
    memBarrierCmd ∉ simpleGradCopyCmds desc := by
  unfold simpleGradCopyCmds
  split_ifs <;> simp [memBarrierCmd]

/-- The tessellation pass records no inter-draw barrier. -/
theorem memBarrier_not_mem_tessPass (C : PLSConstants) (desc : FlushDescriptor) :
    memBarrierCmd ∉ tessPassCmds C desc := by
  unfold tessPassCmds
  split_ifs <;> simp [memBarrierCmd]

/-- The mipmap blit loop records no inter-draw barrier. -/
theorem memBarrier_not_mem_mipBlit (image : ImageId) (mips : Nat) :
    memBarrierCmd ∉ mipBlitCmds image mips := by
  unfold mipBlitCmds
  intro h
  rw [List.mem_flatMap] at h
  obtain ⟨i, -, hi⟩ := h
  simp [memBarrierCmd] at hi

/-- A texture upload records no inter-draw barrier. -/
theorem memBarrier_not_mem_texSync (image : ImageId) (buf : BufferId) (mips : Nat) :
    memBarrierCmd ∉ textureSynchronizeCmds image buf mips := by
  intro h
  unfold textureSynchronizeCmds at h
  rcases List.mem_append.mp h with h | h
  · rcases List.mem_append.mp h with h | h
    · simp [memBarrierCmd] at h
    · split at h
      · rcases List.mem_append.mp h with h | h
        · exact memBarrier_not_mem_mipBlit image mips h
        · simp [memBarrierCmd] at h
      · simp at h
  · simp [memBarrierCmd] at h

/-- The null-texture upload check records no inter-draw barrier. -/
theorem memBarrier_not_mem_nullSync (s : EngineState) :
    memBarrierCmd ∉ nullTextureSyncCmds s := by
  unfold nullTextureSyncCmds
  split_ifs
  · exact memBarrier_not_mem_texSync _ _ _
  · simp

/-- The draw-list texture uploads record no inter-draw barrier. -/
theorem memBarrier_not_mem_syncDrawList (texs : Nat → PLSTextureVulkanState)
    (bs : List DrawBatch) : memBarrierCmd ∉ (syncDrawListTextures texs bs).2 := by
  induction bs generalizing texs with
  | nil => simp [syncDrawListTextures]
  | cons b rest ih =>
    intro h
    rw [syncDrawListTextures] at h
    simp only [List.mem_append] at h
    rcases h with h | h
    · rcases hb : b.imageTexture with _ | t <;> rw [hb] at h
      · simp at h
      · by_cases hu : (texs t).hasUpdates
        · simp only [hu, if_true] at h
          exact memBarrier_not_mem_texSync _ _ _ h
        · simp [hu] at h
    · exact ih _ h

/-- The render-target synchronize records no inter-draw barrier. -/
theorem memBarrier_not_mem_rtSync (rt : RenderTargetState) (mode : InterlockMode) :
    memBarrierCmd ∉ (renderTargetSynchronize rt mode).2 := by
  unfold renderTargetSynchronize
  dsimp only
  split_ifs <;> simp [memBarrierCmd]

/-- The atomic-coverage clear records no inter-draw barrier. -/
theorem memBarrier_not_mem_atomicClear (desc : FlushDescriptor) :
    memBarrierCmd ∉ atomicCoverageClearCmds desc := by
  unfold atomicCoverageClearCmds
  split_ifs <;> simp [memBarrierCmd]

/-- The main-pass setup records no inter-draw barrier. -/
theorem memBarrier_not_mem_mainPassSetup (desc : FlushDescriptor) :
    memBarrierCmd ∉ mainPassSetupCmds desc := by
  by_cases h : desc.interlockMode = InterlockMode.rasterOrdering <;>
    simp [mainPassSetupCmds, h, memBarrierCmd]

/-- Full segment decomposition of a non-depthStencil flush trace. -/
theorem flush_cmds_full_decomp (C : PLSConstants) (s : EngineState) (rt : RenderTargetState)
    (desc : FlushDescriptor) (h : ¬(desc.interlockMode = InterlockMode.depthStencil)) :
    ∃ (texs : Nat → PLSTextureVulkanState) (s' : EngineState),
      (flush C s rt desc).2.2 =
        (makeDescriptorSetPool s).2
        ++ [Cmd.insertImageMemoryBarrier ImageId.gradientTexture ImageLayout.undefined
              ImageLayout.colorAttachmentOptimal 0 1]
        ++ complexGradPassCmds desc
        ++ [Cmd.insertImageMemoryBarrier ImageId.gradientTexture
              ImageLayout.colorAttachmentOptimal ImageLayout.transferDstOptimal 0 1]
        ++ simpleGradCopyCmds desc
        ++ [Cmd.insertImageMemoryBarrier ImageId.gradientTexture ImageLayout.transferDstOptimal
              ImageLayout.shaderReadOnlyOptimal 0 1,
            Cmd.insertImageMemoryBarrier ImageId.tessVertexTexture ImageLayout.undefined
              ImageLayout.colorAttachmentOptimal 0 1]
        ++ tessPassCmds C desc
        ++ [Cmd.insertImageMemoryBarrier ImageId.tessVertexTexture
              ImageLayout.colorAttachmentOptimal ImageLayout.shaderReadOnlyOptimal 0 1]
        ++ nullTextureSyncCmds (makeDescriptorSetPool s).1
        ++ (syncDrawListTextures texs desc.drawList).2
        ++ (renderTargetSynchronize rt desc.interlockMode).2
        ++ [Cmd.makeFramebuffer]
        ++ atomicCoverageClearCmds desc
        ++ (Cmd.beginRenderPass (RenderPassId.drawPass
              (DrawPipelineLayout.RenderPassVariantIdx rt.framebufferFormat
                desc.colorLoadAction)) ::
            (mainPassSetupCmds desc ++
              (drawLoop C ⟨desc.interlockMode, desc.combinedShaderFeatures, desc.wireframe,
                  DrawPipelineLayout.RenderPassVariantIdx rt.framebufferFormat
                    desc.colorLoadAction⟩
                s' (decide (desc.interlockMode = InterlockMode.atomics) &&
                    decide (desc.colorLoadAction = LoadAction.clear)) 0 desc.drawList).2.2.2 ++
              [Cmd.endRenderPass])) := by
  unfold flush
  rw [if_neg h]
  exact ⟨_, _, rfl⟩

/-- A rasterOrdering flush records no inter-draw memory barrier anywhere in
its trace. -/
theorem flush_rasterOrdering_no_memBarrier (C : PLSConstants) (s : EngineState)
    (rt : RenderTargetState) (desc : FlushDescriptor)
    (hmode : desc.interlockMode = InterlockMode.rasterOrdering) :
    memBarrierCmd ∉ (flush C s rt desc).2.2 := by
  have hnds : ¬(desc.interlockMode = InterlockMode.depthStencil) := by simp [hmode]
  obtain ⟨texs, s', hcmds⟩ := flush_cmds_full_decomp C s rt desc hnds
  rw [hcmds]
  intro hmem
  rcases List.mem_append.mp hmem with hmem | hlast
  rotate_left
  · rcases List.mem_cons.mp hlast with hx | hx
    · simp [memBarrierCmd] at hx
    · rcases List.mem_append.mp hx with hx | hx
      rotate_left
      · simp [memBarrierCmd] at hx
      · rcases List.mem_append.mp hx with hx | hx
        · exact memBarrier_not_mem_mainPassSetup desc hx
        · have hpend : (decide (desc.interlockMode = InterlockMode.atomics) &&
              decide (desc.colorLoadAction = LoadAction.clear)) = false := by
            rw [hmode]
            simp
          rw [hpend] at hx
          have hctx : (⟨desc.interlockMode, desc.combinedShaderFeatures, desc.wireframe,
              DrawPipelineLayout.RenderPassVariantIdx rt.framebufferFormat
                desc.colorLoadAction⟩ : DrawPassContext).interlockMode ≠
              InterlockMode.atomics := by
            simp [hmode]
          exact drawLoop_no_barrier C _ s' 0 desc.drawList hctx hx
  · rcases List.mem_append.mp hmem with hmem | hx
    rotate_left
    · exact memBarrier_not_mem_atomicClear desc hx
    rcases List.mem_append.mp hmem with hmem | hx
    rotate_left
    · simp [memBarrierCmd] at hx
    rcases List.mem_append.mp hmem with hmem | hx
    rotate_left
    · exact memBarrier_not_mem_rtSync rt desc.interlockMode hx
    rcases List.mem_append.mp hmem with hmem | hx
    rotate_left
    · exact memBarrier_not_mem_syncDrawList texs desc.drawList hx
    rcases List.mem_append.mp hmem with hmem | hx
    rotate_left
    · exact memBarrier_not_mem_nullSync _ hx
    rcases List.mem_append.mp hmem with hmem | hx
    rotate_left
    · simp [memBarrierCmd] at hx
    rcases List.mem_append.mp hmem with hmem | hx
    rotate_left
    · exact memBarrier_not_mem_tessPass C desc hx
    rcases List.mem_append.mp hmem with hmem | hx
    rotate_left
    · simp [memBarrierCmd] at hx
    rcases List.mem_append.mp hmem with hmem | hx
    rotate_left
    · exact memBarrier_not_mem_simpleGrad desc hx
    rcases List.mem_append.mp hmem with hmem | hx
    rotate_left
    · simp [memBarrierCmd] at hx
    rcases List.mem_append.mp hmem with hmem | hx
    rotate_left
    · exact memBarrier_not_mem_complexGrad desc hx
    rcases List.mem_append.mp hmem with hmem | hx
    rotate_left
    · simp [memBarrierCmd] at hx
    · exact memBarrier_not_mem_makeDescriptorSetPool s hmem

/-- Core of C3: in atomics mode, after the draw of a `needsBarrier` batch
`bi`, the memory barrier is recorded before the next draw (`bj` being the next
batch that draws; the batches between are skipped).  The draw of `bi` is the
`(countP nonzeroBatch t₁ + 1)`-th draw of the loop trace. -/
theorem drawLoop_barrier_between (C : PLSConstants) (ctx : DrawPassContext) (s : EngineState)
    (p : Bool) (cnt : Nat) (t₁ : List DrawBatch) (bi : DrawBatch) (t₂ : List DrawBatch)
    (bj : DrawBatch) (t₃ : List DrawBatch)
    (hmode : ctx.interlockMode = InterlockMode.atomics)
    (hreach : ∀ b ∈ t₁ ++ (bi :: (t₂ ++ (bj :: t₃))), b.elementCount ≠ 0 →
      b.drawType.reachableInVulkanFlush = true)
    (hbarrier : bi.needsBarrier = true) (hi : bi.elementCount ≠ 0) (hj : bj.elementCount ≠ 0)
    (hzero : ∀ b ∈ t₂, b.elementCount = 0) :
    memBarrierCmd ∈
      ((dropAfterDraws (t₁.countP nonzeroBatch + 1)
          (drawLoop C ctx s p cnt (t₁ ++ (bi :: (t₂ ++ (bj :: t₃))))).2.2.2).takeWhile
        fun c => !c.isDraw) := by
  have hmem_bi : bi ∈ t₁ ++ (bi :: (t₂ ++ (bj :: t₃))) :=
    List.mem_append_right _ (List.mem_cons_self _ _)
  -- name the loop over the prefix
  have hsplit1 := drawLoop_append C ctx s p cnt t₁ (bi :: (t₂ ++ (bj :: t₃)))
  set X := drawLoop C ctx s p cnt t₁ with hXdef
  -- one step of the loop at bi
  rw [hsplit1]
  simp only
  rw [drawLoop]
  simp only
  set Ri := processBatch C ctx X.1 X.2.1 X.2.2.1 bi with hRidef
  -- the loop after bi, over t₂ ++ (bj :: t₃)
  have hpend_i : Ri.2.1 = true := by
    rw [hRidef, processBatch_nonzero_pending C ctx X.1 X.2.1 X.2.2.1 bi hi, hmode, hbarrier]
    simp
  rw [drawLoop_append C ctx Ri.1 Ri.2.1 Ri.2.2.1 t₂ (bj :: t₃),
    drawLoop_allZero C ctx Ri.1 Ri.2.1 Ri.2.2.1 t₂ hzero]
  simp only
  rw [hpend_i]
  rw [drawLoop]
  simp only
  set Rj := processBatch C ctx Ri.1 true Ri.2.2.1 bj with hRjdef
  -- split bi's trace at its draw
  obtain ⟨pre_i, dc_i, hseg_i, hdci, hprei, -⟩ :=
    processBatch_nonzero_split C ctx X.1 X.2.1 X.2.2.1 bi hi (hreach bi hmem_bi hi)
  rw [← hRidef] at hseg_i
  rw [hseg_i]
  -- shape the trace as A ++ dc_i :: B
  have hshape : X.2.2.2 ++ ((pre_i ++ [dc_i]) ++ ([] ++
        (Rj.2.2.2 ++ (drawLoop C ctx Rj.1 Rj.2.1 Rj.2.2.1 t₃).2.2.2))) =
      (X.2.2.2 ++ pre_i) ++ (dc_i ::
        (Rj.2.2.2 ++ (drawLoop C ctx Rj.1 Rj.2.1 Rj.2.2.1 t₃).2.2.2)) := by
    simp
  rw [hshape]
  -- the prefix has exactly countP t₁ draws
  have hXcount : drawCount X.2.2.2 = t₁.countP nonzeroBatch := by
    rw [hXdef]
    exact drawLoop_drawCount C ctx s p cnt t₁
      fun b hb hbe => hreach b (List.mem_append_left _ hb) hbe
  have hAcount : drawCount (X.2.2.2 ++ pre_i) = t₁.countP nonzeroBatch := by
    unfold drawCount
    rw [List.countP_append]
    have h0 : pre_i.countP Cmd.isDraw = 0 := by
      rw [List.countP_eq_zero]
      intro a ha
      simp [hprei a ha]
    unfold drawCount at hXcount
    omega
  have hdrop : dropAfterDraws (t₁.countP nonzeroBatch + 1)
      ((X.2.2.2 ++ pre_i) ++ (dc_i ::
        (Rj.2.2.2 ++ (drawLoop C ctx Rj.1 Rj.2.1 Rj.2.2.1 t₃).2.2.2))) =
      Rj.2.2.2 ++ (drawLoop C ctx Rj.1 Rj.2.1 Rj.2.2.1 t₃).2.2.2 := by
    have := dropAfterDraws_append (X.2.2.2 ++ pre_i) 0 dc_i
      (Rj.2.2.2 ++ (drawLoop C ctx Rj.1 Rj.2.1 Rj.2.2.1 t₃).2.2.2) hdci
    rw [hAcount] at this
    simpa [dropAfterDraws] using this
  rw [hdrop]
  exact mem_takeWhile_append_left
    (processBatch_barrier_before_draw C ctx Ri.1 Ri.2.2.1 bj hj)

/-! ## C3: needsBarrier batches get a barrier before the next draw -/

/-- C3: in atomics mode, for every `DrawBatch` whose `needsBarrier` flag is
set, that draws (`elementCount != 0`) and is followed by a later draw in the
same flush (`bj` the next drawing batch, all batches in between skipped), the
color-attachment-write to input-attachment-read memory barrier is recorded
after that batch's draw (the `countP nonzeroBatch t₁ + 1`-th draw of the loop
trace) and before the next draw; and in rasterOrdering mode no such per-batch
barrier is ever recorded anywhere in the flush. -/
theorem drawBatch_needsBarrier_barrier_between_draws :
    (∀ (C : PLSConstants) (ctx : DrawPassContext) (s : EngineState) (p : Bool) (cnt : Nat)
        (t₁ : List DrawBatch) (bi : DrawBatch) (t₂ : List DrawBatch) (bj : DrawBatch)
        (t₃ : List DrawBatch),
        ctx.interlockMode = InterlockMode.atomics →
        (∀ b ∈ t₁ ++ (bi :: (t₂ ++ (bj :: t₃))), b.elementCount ≠ 0 →
          b.drawType.reachableInVulkanFlush = true) →
        bi.needsBarrier = true → bi.elementCount ≠ 0 → bj.elementCount ≠ 0 →
        (∀ b ∈ t₂, b.elementCount = 0) →
        memBarrierCmd ∈
          ((dropAfterDraws (t₁.countP nonzeroBatch + 1)
              (drawLoop C ctx s p cnt (t₁ ++ (bi :: (t₂ ++ (bj :: t₃))))).2.2.2).takeWhile
            fun c => !c.isDraw))
    ∧ (∀ (C : PLSConstants) (s : EngineState) (rt : RenderTargetState) (desc : FlushDescriptor),
        desc.interlockMode = InterlockMode.rasterOrdering →
        memBarrierCmd ∉ (flush C s rt desc).2.2) :=
  ⟨drawLoop_barrier_between, flush_rasterOrdering_no_memBarrier⟩

/-- Witness for C3: a needsBarrier batch followed by a skipped batch and then
a drawing batch gets its barrier; a rasterOrdering flush records none. -/
theorem drawBatch_needsBarrier_barrier_between_draws_witness :
    memBarrierCmd ∈
      ((dropAfterDraws (([] : List DrawBatch).countP nonzeroBatch + 1)
          (drawLoop sampleConstants ⟨InterlockMode.atomics, 1, false, 0⟩ sampleEngineState
            false 0
            ([] ++ (({ sampleBatch with needsBarrier := true }) ::
              ([{ sampleBatch with elementCount := 0 }] ++
                (sampleBatch :: []))))).2.2.2).takeWhile
        fun c => !c.isDraw)
    ∧ memBarrierCmd ∉ (flush sampleConstants sampleEngineState sampleRenderTarget
        ({ sampleFlushDescriptor with
            interlockMode := InterlockMode.rasterOrdering })).2.2 :=
  ⟨drawBatch_needsBarrier_barrier_between_draws.1 sampleConstants
      ⟨InterlockMode.atomics, 1, false, 0⟩ sampleEngineState false 0 []
      ({ sampleBatch with needsBarrier := true }) [{ sampleBatch with elementCount := 0 }]
      sampleBatch [] rfl (by decide) rfl (by decide) (by decide) (by decide),
   drawBatch_needsBarrier_barrier_between_draws.2 sampleConstants sampleEngineState
      sampleRenderTarget ({ sampleFlushDescriptor with
        interlockMode := InterlockMode.rasterOrdering }) rfl⟩

/-! ## C4: image-texture descriptor sets are allocated at most once per frame -/

/-- The texture's per-draw descriptor set is from the current frame
(`m_descriptorSetFrameIdx == m_currentFrameIdx`). -/
def allocated (s : EngineState) (t : Nat) : Prop :=
  (s.textures t).descriptorSetFrameIdx = some s.currentFrameIdx

/-- Pool events never allocate an image-texture descriptor set. -/
theorem alloc_not_mem_makeDescriptorSetPool (s : EngineState) (t : Nat) :
    Cmd.allocateImageTextureDescriptorSet t ∉ (makeDescriptorSetPool s).2 := by
  rcases makeDescriptorSetPool_cmds s with h | h <;> rw [h] <;> simp

/-- The gradient pass never allocates an image-texture descriptor set. -/
theorem alloc_not_mem_complexGrad (desc : FlushDescriptor) (t : Nat) :
    Cmd.allocateImageTextureDescriptorSet t ∉ complexGradPassCmds desc := by
  unfold complexGradPassCmds
  split_ifs <;> simp

/-- The simple-ramp upload never allocates an image-texture descriptor set. -/
theorem alloc_not_mem_simpleGrad (desc : FlushDescriptor) (t : Nat) :
    Cmd.allocateImageTextureDescriptorSet t ∉ simpleGradCopyCmds desc := by
  unfold simpleGradCopyCmds
  split_ifs <;> simp

/-- The tessellation pass never allocates an image-texture descriptor set. -/
theorem alloc_not_mem_tessPass (C : PLSConstants) (desc : FlushDescriptor) (t : Nat) :
    Cmd.allocateImageTextureDescriptorSet t ∉ tessPassCmds C desc := by
  unfold tessPassCmds
  split_ifs <;> simp

/-- The mip blit loop never allocates an image-texture descriptor set. -/
theorem alloc_not_mem_mipBlit (image : ImageId) (mips t : Nat) :
    Cmd.allocateImageTextureDescriptorSet t ∉ mipBlitCmds image mips := by
  unfold mipBlitCmds
  intro h
  rw [List.mem_flatMap] at h
  obtain ⟨i, -, hi⟩ := h
  simp at hi

/-- A texture upload never allocates an image-texture descriptor set. -/
theorem alloc_not_mem_texSync (image : ImageId) (buf : BufferId) (mips t : Nat) :
    Cmd.allocateImageTextureDescriptorSet t ∉ textureSynchronizeCmds image buf mips := by
  intro h
  unfold textureSynchronizeCmds at h
  rcases List.mem_append.mp h with h | h
  · rcases List.mem_append.mp h with h | h
    · simp at h
    · split at h
      · rcases List.mem_append.mp h with h | h
        · exact alloc_not_mem_mipBlit image mips t h
        · simp at h
      · simp at h
  · simp at h

/-- The null-texture upload check never allocates an image-texture descriptor
set. -/
theorem alloc_not_mem_nullSync (s : EngineState) (t : Nat) :
    Cmd.allocateImageTextureDescriptorSet t ∉ nullTextureSyncCmds s := by
  unfold nullTextureSyncCmds
  split_ifs
  · exact alloc_not_mem_texSync _ _ _ _
  · simp

/-- The draw-list texture uploads never allocate an image-texture descriptor
set. -/
theorem alloc_not_mem_syncDrawList (texs : Nat → PLSTextureVulkanState)
    (bs : List DrawBatch) (t : Nat) :
    Cmd.allocateImageTextureDescriptorSet t ∉ (syncDrawListTextures texs bs).2 := by
  induction bs generalizing texs with
  | nil => simp [syncDrawListTextures]
  | cons b rest ih =>
    intro h
    rw [syncDrawListTextures] at h
    simp only [List.mem_append] at h
    rcases h with h | h
    · rcases hb : b.imageTexture with _ | tid <;> rw [hb] at h
      · simp at h
      · by_cases hu : (texs tid).hasUpdates
        · simp only [hu, if_true] at h
          exact alloc_not_mem_texSync _ _ _ _ h
        · simp [hu] at h
    · exact ih _ h

/-- The render-target synchronize never allocates an image-texture descriptor
set. -/
theorem alloc_not_mem_rtSync (rt : RenderTargetState) (mode : InterlockMode) (t : Nat) :
    Cmd.allocateImageTextureDescriptorSet t ∉ (renderTargetSynchronize rt mode).2 := by
  unfold renderTargetSynchronize
  dsimp only
  split_ifs <;> simp

/-- The atomic-coverage clear never allocates an image-texture descriptor
set. -/
theorem alloc_not_mem_atomicClear (desc : FlushDescriptor) (t : Nat) :
    Cmd.allocateImageTextureDescriptorSet t ∉ atomicCoverageClearCmds desc := by
  unfold atomicCoverageClearCmds
  split_ifs <;> simp

/-- The main-pass setup never allocates an image-texture descriptor set (its
descriptor sets are the per-flush and PLS sets). -/
theorem alloc_not_mem_mainPassSetup (desc : FlushDescriptor) (t : Nat) :
    Cmd.allocateImageTextureDescriptorSet t ∉ mainPassSetupCmds desc := by
  by_cases h : desc.interlockMode = InterlockMode.rasterOrdering <;>
    simp [mainPassSetupCmds, h]

/-- The draw switch never allocates an image-texture descriptor set. -/
theorem alloc_not_mem_drawTypeCmds (C : PLSConstants) (b : DrawBatch) (t : Nat) :
    Cmd.allocateImageTextureDescriptorSet t ∉ drawTypeCmds C b := by
  cases hb : b.drawType <;> simp [drawTypeCmds, hb]

/-- Allocation bookkeeping of the image-texture part, for every texture `t`:
the frame index is preserved; a texture already stamped with the current
frame gets no new descriptor set; an unstamped texture gets at most one, and
exactly zero when it remains unstamped. -/
theorem imagePart_alloc (s : EngineState) (cnt texId t : Nat) :
    (imagePart s cnt texId).1.currentFrameIdx = s.currentFrameIdx
    ∧ (allocated s t →
        (imagePart s cnt texId).2.2.count (Cmd.allocateImageTextureDescriptorSet t) = 0
        ∧ allocated (imagePart s cnt texId).1 t)
    ∧ (¬allocated s t →
        (imagePart s cnt texId).2.2.count (Cmd.allocateImageTextureDescriptorSet t) ≤ 1
        ∧ (¬allocated (imagePart s cnt texId).1 t →
          (imagePart s cnt texId).2.2.count (Cmd.allocateImageTextureDescriptorSet t) = 0)) := by
  by_cases h1 : (s.textures texId).descriptorSetFrameIdx ≠ some s.currentFrameIdx
  case neg =>
    unfold imagePart
    rw [if_neg h1]
    exact ⟨rfl, fun ha => ⟨by simp, ha⟩, fun ha => ⟨by simp, fun _ => by simp⟩⟩
  case pos =>
    obtain ⟨pool, hpool⟩ := makeDescriptorSetPool_state s
    have hcount0 := alloc_not_mem_makeDescriptorSetPool s t
    rw [← List.count_eq_zero] at hcount0
    unfold imagePart
    rw [if_pos h1]
    by_cases h2 : descriptor_pool_limits.kMaxImageTextureUpdates ≤ cnt
    · rw [if_pos h2, hpool]
      dsimp only
      by_cases ht : t = texId
      · subst ht
        refine ⟨rfl, fun ha => absurd ha h1, fun ha => ⟨?_, fun hafter => absurd ?_ hafter⟩⟩
        · rw [List.count_append]
          simp [hcount0, List.count_cons]
        · show allocated _ t
          unfold allocated
          simp [Function.update]
      · refine ⟨rfl, fun ha => ⟨?_, ?_⟩, fun ha => ⟨?_, fun hafter => ?_⟩⟩
        · rw [List.count_append]
          simp [hcount0, List.count_cons, ht]
        · unfold allocated at ha ⊢
          simp only [Function.update, ht]
          simpa using ha
        · rw [List.count_append]
          simp [hcount0, List.count_cons, ht]
        · rw [List.count_append]
          simp [hcount0, List.count_cons, ht]
    · rw [if_neg h2]
      dsimp only
      by_cases ht : t = texId
      · subst ht
        refine ⟨rfl, fun ha => absurd ha h1, fun ha => ⟨?_, fun hafter => absurd ?_ hafter⟩⟩
        · simp [List.count_cons]
        · show allocated _ t
          unfold allocated
          simp [Function.update]
      · refine ⟨rfl, fun ha => ⟨?_, ?_⟩, fun ha => ⟨?_, fun hafter => ?_⟩⟩
        · simp [List.count_cons, ht]
        · unfold allocated at ha ⊢
          simp only [Function.update, ht]
          simpa using ha
        · simp [List.count_cons, ht]
        · simp [List.count_cons, ht]

/-- Allocation bookkeeping of one loop iteration, for every texture `t`. -/
theorem processBatch_alloc (C : PLSConstants) (ctx : DrawPassContext) (s : EngineState)
    (p : Bool) (cnt : Nat) (b : DrawBatch) (t : Nat) :
    (processBatch C ctx s p cnt b).1.currentFrameIdx = s.currentFrameIdx
    ∧ (allocated s t →
        (processBatch C ctx s p cnt b).2.2.2.count (Cmd.allocateImageTextureDescriptorSet t) = 0
        ∧ allocated (processBatch C ctx s p cnt b).1 t)
    ∧ (¬allocated s t →
        (processBatch C ctx s p cnt b).2.2.2.count (Cmd.allocateImageTextureDescriptorSet t) ≤ 1
        ∧ (¬allocated (processBatch C ctx s p cnt b).1 t →
          (processBatch C ctx s p cnt b).2.2.2.count
            (Cmd.allocateImageTextureDescriptorSet t) = 0)) := by
  have htail : ((if p then [memBarrierCmd] else []) ++ drawTypeCmds C b).count
      (Cmd.allocateImageTextureDescriptorSet t) = 0 := by
    rw [List.count_append]
    have h2 := alloc_not_mem_drawTypeCmds C b t
    rw [← List.count_eq_zero] at h2
    rcases p <;> simp [h2, memBarrierCmd]
  have hbind : ∀ k : Nat, (Cmd.bindPipeline (PipelineId.drawPipeline k) ::
      ((if p then [memBarrierCmd] else []) ++ drawTypeCmds C b)).count
      (Cmd.allocateImageTextureDescriptorSet t) = 0 := by
    intro k
    rw [List.count_cons, htail]
    simp
  by_cases hz : b.elementCount = 0
  · rw [processBatch_zero C ctx s p cnt b hz]
    exact ⟨rfl, fun ha => ⟨by simp, ha⟩, fun _ => ⟨by simp, fun _ => by simp⟩⟩
  · unfold processBatch
    rw [if_neg hz]
    dsimp only
    rcases hb : b.imageTexture with _ | texId <;> dsimp only
    · by_cases hkey : pipelineKeyOf C ctx s.capFillModeNonSolid b ∈ s.drawPipelineKeys <;>
        [rw [if_pos hkey]; rw [if_neg hkey]] <;>
        refine ⟨rfl, fun ha => ⟨?_, ha⟩, fun _ => ⟨?_, fun _ => ?_⟩⟩ <;>
        · have hk := hbind (pipelineKeyOf C ctx s.capFillModeNonSolid b)
          simp [List.count_cons, List.count_append, memBarrierCmd] at hk ⊢
          omega
    · obtain ⟨hfi, hpos, hneg⟩ := imagePart_alloc s cnt texId t
      by_cases hkey : pipelineKeyOf C ctx s.capFillModeNonSolid b ∈
          (imagePart s cnt texId).1.drawPipelineKeys <;>
        [rw [if_pos hkey]; rw [if_neg hkey]] <;>
        refine ⟨hfi, fun ha => ⟨?_, (hpos ha).2⟩, fun ha => ⟨?_, fun hafter => ?_⟩⟩ <;>
        rw [List.count_append, hbind (pipelineKeyOf C ctx s.capFillModeNonSolid b)]
      · rw [(hpos ha).1]
      · have := (hneg ha).1
        omega
      · rw [(hneg ha).2 hafter]
      · rw [(hpos ha).1]
      · have := (hneg ha).1
        omega
      · rw [(hneg ha).2 hafter]

/-- Allocation bookkeeping of the whole draw-list loop, for every texture
`t`. -/
theorem drawLoop_alloc (C : PLSConstants) (ctx : DrawPassContext) (s : EngineState)
    (p : Bool) (cnt : Nat) (bs : List DrawBatch) (t : Nat) :
    (drawLoop C ctx s p cnt bs).1.currentFrameIdx = s.currentFrameIdx
    ∧ (allocated s t →
        (drawLoop C ctx s p cnt bs).2.2.2.count (Cmd.allocateImageTextureDescriptorSet t) = 0
        ∧ allocated (drawLoop C ctx s p cnt bs).1 t)
    ∧ (¬allocated s t →
        (drawLoop C ctx s p cnt bs).2.2.2.count (Cmd.allocateImageTextureDescriptorSet t) ≤ 1
        ∧ (¬allocated (drawLoop C ctx s p cnt bs).1 t →
          (drawLoop C ctx s p cnt bs).2.2.2.count
            (Cmd.allocateImageTextureDescriptorSet t) = 0)) := by
  induction bs generalizing s p cnt with
  | nil =>
    exact ⟨rfl, fun ha => ⟨by simp [drawLoop], ha⟩, fun _ => ⟨by simp [drawLoop], fun _ => by
      simp [drawLoop]⟩⟩
  | cons b rest ih =>
    obtain ⟨hb1, hb2, hb3⟩ := processBatch_alloc C ctx s p cnt b t
    obtain ⟨hl1, hl2, hl3⟩ := ih (processBatch C ctx s p cnt b).1
      (processBatch C ctx s p cnt b).2.1 (processBatch C ctx s p cnt b).2.2.1
    rw [drawLoop]
    dsimp only
    refine ⟨by rw [hl1, hb1], fun ha => ?_, fun ha => ?_⟩
    · obtain ⟨hc0, hal⟩ := hb2 ha
      obtain ⟨hc1, hal1⟩ := hl2 hal
      exact ⟨by rw [List.count_append, hc0, hc1], hal1⟩
    · obtain ⟨hcle, hcz⟩ := hb3 ha
      by_cases hmid : allocated (processBatch C ctx s p cnt b).1 t
      · obtain ⟨hc1, hal1⟩ := hl2 hmid
        refine ⟨by rw [List.count_append, hc1]; omega, fun hfin => absurd hal1 hfin⟩
      · obtain ⟨hc1, hcz1⟩ := hl3 hmid
        have hb0 := hcz hmid
        refine ⟨by rw [List.count_append, hb0]; omega, fun hfin => ?_⟩
        rw [List.count_append, hb0, hcz1 hfin]

/-- The pending-upload walk only clears `hasUpdates`; it never touches a
texture's descriptor-set frame stamp. -/
theorem syncDrawList_preserves_frameIdx (texs : Nat → PLSTextureVulkanState)
    (bs : List DrawBatch) (u : Nat) :
    ((syncDrawListTextures texs bs).1 u).descriptorSetFrameIdx =
      (texs u).descriptorSetFrameIdx := by
  induction bs generalizing texs with
  | nil => rfl
  | cons b rest ih =>
    rw [syncDrawListTextures]
    dsimp only
    rcases hb : b.imageTexture with _ | tid <;> dsimp only
    · exact ih texs
    · by_cases hu : (texs tid).hasUpdates
      · simp only [hu, if_true]
        rw [ih]
        by_cases hut : u = tid
        · subst hut
          simp [Function.update]
        · simp [Function.update, hut]
      · simp only [Bool.not_eq_true] at hu
        simp only [hu, Bool.false_eq_true, if_false]
        exact ih texs

/-- Full decomposition of a non-depthStencil flush together with the state
relations needed for allocation bookkeeping: the loop's start state carries
the same frame index and the same per-texture descriptor-set frame stamps as
the incoming state, and the flush's final state carries those of the loop's
final state. -/
theorem flush_state_relations (C : PLSConstants) (s : EngineState) (rt : RenderTargetState)
    (desc : FlushDescriptor) (h : ¬(desc.interlockMode = InterlockMode.depthStencil)) :
    ∃ (texs : Nat → PLSTextureVulkanState) (s5 : EngineState),
      ((flush C s rt desc).2.2 =
        (makeDescriptorSetPool s).2
        ++ [Cmd.insertImageMemoryBarrier ImageId.gradientTexture ImageLayout.undefined
              ImageLayout.colorAttachmentOptimal 0 1]
        ++ complexGradPassCmds desc
        ++ [Cmd.insertImageMemoryBarrier ImageId.gradientTexture
              ImageLayout.colorAttachmentOptimal ImageLayout.transferDstOptimal 0 1]
        ++ simpleGradCopyCmds desc
        ++ [Cmd.insertImageMemoryBarrier ImageId.gradientTexture ImageLayout.transferDstOptimal
              ImageLayout.shaderReadOnlyOptimal 0 1,
            Cmd.insertImageMemoryBarrier ImageId.tessVertexTexture ImageLayout.undefined
              ImageLayout.colorAttachmentOptimal 0 1]
        ++ tessPassCmds C desc
        ++ [Cmd.insertImageMemoryBarrier ImageId.tessVertexTexture
              ImageLayout.colorAttachmentOptimal ImageLayout.shaderReadOnlyOptimal 0 1]
        ++ nullTextureSyncCmds (makeDescriptorSetPool s).1
        ++ (syncDrawListTextures texs desc.drawList).2
        ++ (renderTargetSynchronize rt desc.interlockMode).2
        ++ [Cmd.makeFramebuffer]
        ++ atomicCoverageClearCmds desc
        ++ (Cmd.beginRenderPass (RenderPassId.drawPass
              (DrawPipelineLayout.RenderPassVariantIdx rt.framebufferFormat
                desc.colorLoadAction)) ::
            (mainPassSetupCmds desc ++
              (drawLoop C ⟨desc.interlockMode, desc.combinedShaderFeatures, desc.wireframe,
                  DrawPipelineLayout.RenderPassVariantIdx rt.framebufferFormat
                    desc.colorLoadAction⟩
                s5 (decide (desc.interlockMode = InterlockMode.atomics) &&
                    decide (desc.colorLoadAction = LoadAction.clear)) 0 desc.drawList).2.2.2 ++
              [Cmd.endRenderPass])))
      ∧ s5.currentFrameIdx = s.currentFrameIdx
      ∧ (∀ u, (s5.textures u).descriptorSetFrameIdx = (s.textures u).descriptorSetFrameIdx)
      ∧ (flush C s rt desc).1.currentFrameIdx =
          (drawLoop C ⟨desc.interlockMode, desc.combinedShaderFeatures, desc.wireframe,
              DrawPipelineLayout.RenderPassVariantIdx rt.framebufferFormat
                desc.colorLoadAction⟩
            s5 (decide (desc.interlockMode = InterlockMode.atomics) &&
                decide (desc.colorLoadAction = LoadAction.clear)) 0 desc.drawList).1.currentFrameIdx
      ∧ (∀ u, ((flush C s rt desc).1.textures u).descriptorSetFrameIdx =
          ((drawLoop C ⟨desc.interlockMode, desc.combinedShaderFeatures, desc.wireframe,
              DrawPipelineLayout.RenderPassVariantIdx rt.framebufferFormat
                desc.colorLoadAction⟩
            s5 (decide (desc.interlockMode = InterlockMode.atomics) &&
                decide (desc.colorLoadAction = LoadAction.clear)) 0
            desc.drawList).1.textures u).descriptorSetFrameIdx) := by
  obtain ⟨pool, hpool⟩ := makeDescriptorSetPool_state s
  unfold flush
  rw [if_neg h]
  refine ⟨_, _, rfl, ?_, ?_, ?_, ?_⟩
  · rw [hpool]
    split_ifs <;> rfl
  · intro u
    rw [hpool]
    split_ifs <;> exact syncDrawList_preserves_frameIdx s.textures desc.drawList u
  · dsimp only
    split_ifs <;> rfl
  · intro u
    dsimp only
    split_ifs <;> rfl

/-- Allocation bookkeeping of a whole flush, for every texture `t`: the frame
index is preserved; a texture already stamped with the current frame gets no
new per-draw descriptor set; an unstamped texture gets at most one, and
exactly zero when it remains unstamped. -/
theorem flush_alloc (C : PLSConstants) (s : EngineState) (rt : RenderTargetState)
    (desc : FlushDescriptor) (t : Nat) :
    (flush C s rt desc).1.currentFrameIdx = s.currentFrameIdx
    ∧ (allocated s t →
        (flush C s rt desc).2.2.count (Cmd.allocateImageTextureDescriptorSet t) = 0
        ∧ allocated (flush C s rt desc).1 t)
    ∧ (¬allocated s t →
        (flush C s rt desc).2.2.count (Cmd.allocateImageTextureDescriptorSet t) ≤ 1
        ∧ (¬allocated (flush C s rt desc).1 t →
          (flush C s rt desc).2.2.count (Cmd.allocateImageTextureDescriptorSet t) = 0)) := by
  by_cases h : desc.interlockMode = InterlockMode.depthStencil
  · unfold flush
    rw [if_pos h]
    exact ⟨rfl, fun ha => ⟨by simp, ha⟩, fun _ => ⟨by simp, fun _ => by simp⟩⟩
  · obtain ⟨texs, s5, htrace, hs5cur, hs5tex, hfincur, hfintex⟩ :=
      flush_state_relations C s rt desc h
    obtain ⟨hl1, hl2, hl3⟩ := drawLoop_alloc C
      ⟨desc.interlockMode, desc.combinedShaderFeatures, desc.wireframe,
        DrawPipelineLayout.RenderPassVariantIdx rt.framebufferFormat desc.colorLoadAction⟩
      s5 (decide (desc.interlockMode = InterlockMode.atomics) &&
          decide (desc.colorLoadAction = LoadAction.clear)) 0 desc.drawList t
    have hcount : (flush C s rt desc).2.2.count (Cmd.allocateImageTextureDescriptorSet t) =
        (drawLoop C ⟨desc.interlockMode, desc.combinedShaderFeatures, desc.wireframe,
            DrawPipelineLayout.RenderPassVariantIdx rt.framebufferFormat desc.colorLoadAction⟩
          s5 (decide (desc.interlockMode = InterlockMode.atomics) &&
              decide (desc.colorLoadAction = LoadAction.clear)) 0
          desc.drawList).2.2.2.count (Cmd.allocateImageTextureDescriptorSet t) := by
      rw [htrace]
      simp only [List.count_append, List.count_cons,
        List.count_eq_zero.mpr (alloc_not_mem_makeDescriptorSetPool s t),
        List.count_eq_zero.mpr (alloc_not_mem_complexGrad desc t),
        List.count_eq_zero.mpr (alloc_not_mem_simpleGrad desc t),
        List.count_eq_zero.mpr (alloc_not_mem_tessPass C desc t),
        List.count_eq_zero.mpr (alloc_not_mem_nullSync (makeDescriptorSetPool s).1 t),
        List.count_eq_zero.mpr (alloc_not_mem_syncDrawList texs desc.drawList t),
        List.count_eq_zero.mpr (alloc_not_mem_rtSync rt desc.interlockMode t),
        List.count_eq_zero.mpr (alloc_not_mem_atomicClear desc t),
        List.count_eq_zero.mpr (alloc_not_mem_mainPassSetup desc t)]
      simp
    have hallocs5 : allocated s5 t ↔ allocated s t := by
      unfold allocated
      rw [hs5cur, hs5tex t]
    have hallocfin : allocated (flush C s rt desc).1 t ↔
        allocated (drawLoop C ⟨desc.interlockMode, desc.combinedShaderFeatures, desc.wireframe,
            DrawPipelineLayout.RenderPassVariantIdx rt.framebufferFormat desc.colorLoadAction⟩
          s5 (decide (desc.interlockMode = InterlockMode.atomics) &&
              decide (desc.colorLoadAction = LoadAction.clear)) 0 desc.drawList).1 t := by
      unfold allocated
      rw [hfincur, hfintex t]
    refine ⟨by rw [hfincur, hl1, hs5cur], fun ha => ?_, fun ha => ?_⟩
    · obtain ⟨hc0, hal⟩ := hl2 (hallocs5.mpr ha)
      exact ⟨by rw [hcount, hc0], hallocfin.mpr hal⟩
    · obtain ⟨hcle, hcz⟩ := hl3 fun hx => ha (hallocs5.mp hx)
      exact ⟨by rw [hcount]; exact hcle, fun hfin => by
        rw [hcount]
        exact hcz fun hx => hfin (hallocfin.mpr hx)⟩

/-- Allocation bookkeeping across a frame's flushes, for every texture
`t`. -/
theorem runFlushes_alloc (C : PLSConstants) (s : EngineState) (rt : RenderTargetState)
    (descs : List FlushDescriptor) (t : Nat) :
    (runFlushes C s rt descs).1.currentFrameIdx = s.currentFrameIdx
    ∧ (allocated s t →
        (runFlushes C s rt descs).2.2.count (Cmd.allocateImageTextureDescriptorSet t) = 0
        ∧ allocated (runFlushes C s rt descs).1 t)
    ∧ (¬allocated s t →
        (runFlushes C s rt descs).2.2.count (Cmd.allocateImageTextureDescriptorSet t) ≤ 1
        ∧ (¬allocated (runFlushes C s rt descs).1 t →
          (runFlushes C s rt descs).2.2.count (Cmd.allocateImageTextureDescriptorSet t) = 0)) := by
  induction descs generalizing s rt with
  | nil =>
    exact ⟨rfl, fun ha => ⟨by simp [runFlushes], ha⟩,
      fun _ => ⟨by simp [runFlushes], fun _ => by simp [runFlushes]⟩⟩
  | cons d rest ih =>
    obtain ⟨hb1, hb2, hb3⟩ := flush_alloc C s rt d t
    obtain ⟨hl1, hl2, hl3⟩ := ih (flush C s rt d).1 (flush C s rt d).2.1
    rw [runFlushes]
    dsimp only
    refine ⟨by rw [hl1, hb1], fun ha => ?_, fun ha => ?_⟩
    · obtain ⟨hc0, hal⟩ := hb2 ha
      obtain ⟨hc1, hal1⟩ := hl2 hal
      exact ⟨by rw [List.count_append, hc0, hc1], hal1⟩
    · obtain ⟨hcle, hcz⟩ := hb3 ha
      by_cases hmid : allocated (flush C s rt d).1 t
      · obtain ⟨hc1, hal1⟩ := hl2 hmid
        refine ⟨by rw [List.count_append, hc1]; omega, fun hfin => absurd hal1 hfin⟩
      · obtain ⟨hc1, hcz1⟩ := hl3 hmid
        have hb0 := hcz hmid
        refine ⟨by rw [List.count_append, hb0]; omega, fun hfin => ?_⟩
        rw [List.count_append, hb0, hcz1 hfin]

/-- The image-texture part always rebinds descriptor sets 0-1 (the per-flush
set with the batch's dynamic uniform offset, and the texture's per-draw
set). -/
theorem imagePart_binds (s : EngineState) (cnt texId : Nat) :
    Cmd.bindDescriptorSets 0 2 ∈ (imagePart s cnt texId).2.2 := by
  unfold imagePart
  split_ifs <;> simp

/-! ## C4: the claim -/

/-- C4: within one frame (no `prepareToMapBuffers` in between), a texture
whose per-draw descriptor set is not yet from the current frame gets at most
one descriptor-set allocation-and-write across all flushes of the frame, no
matter how many batches or flushes reference it; and every non-skipped batch
that references an image texture rebinds the descriptor sets (set 0 with the
batch's dynamic image-draw uniform offset and set 1 with the texture's
per-draw set). -/
theorem imageTexture_descriptorSet_at_most_once_per_frame :
    (∀ (C : PLSConstants) (s : EngineState) (rt : RenderTargetState)
        (descs : List FlushDescriptor) (t : Nat),
        ¬allocated s t →
        (runFlushes C s rt descs).2.2.count (Cmd.allocateImageTextureDescriptorSet t) ≤ 1)
    ∧ (∀ (C : PLSConstants) (ctx : DrawPassContext) (s : EngineState) (p : Bool) (cnt : Nat)
        (b : DrawBatch) (texId : Nat),
        b.elementCount ≠ 0 → b.imageTexture = some texId →
        Cmd.bindDescriptorSets 0 2 ∈ (processBatch C ctx s p cnt b).2.2.2) := by
  constructor
  · intro C s rt descs t ha
    exact ((runFlushes_alloc C s rt descs t).2.2 ha).1
  · intro C ctx s p cnt b texId hz hb
    rw [processBatch_nonzero_cmds C ctx s p cnt b hz]
    apply List.mem_append_left
    unfold imageCmdsOf
    rw [hb]
    exact imagePart_binds s cnt texId

/-- Witness for C4: two flushes, each with two batches referencing texture 5,
allocate its descriptor set at most once; and a batch referencing texture 5
rebinds the descriptor sets. -/
theorem imageTexture_descriptorSet_at_most_once_per_frame_witness :
    (runFlushes sampleConstants sampleEngineState sampleRenderTarget
        [{ sampleFlushDescriptor with
            drawList := [{ sampleBatch with imageTexture := some 5 },
                         { sampleBatch with imageTexture := some 5 }] },
         { sampleFlushDescriptor with
            drawList := [{ sampleBatch with imageTexture := some 5 }] }]).2.2.count
      (Cmd.allocateImageTextureDescriptorSet 5) ≤ 1
    ∧ Cmd.bindDescriptorSets 0 2 ∈
        (processBatch sampleConstants ⟨InterlockMode.atomics, 1, false, 0⟩ sampleEngineState
          false 0 ({ sampleBatch with imageTexture := some 5 })).2.2.2 :=
  ⟨imageTexture_descriptorSet_at_most_once_per_frame.1 sampleConstants sampleEngineState
      sampleRenderTarget
      [{ sampleFlushDescriptor with
          drawList := [{ sampleBatch with imageTexture := some 5 },
                       { sampleBatch with imageTexture := some 5 }] },
       { sampleFlushDescriptor with
          drawList := [{ sampleBatch with imageTexture := some 5 }] }] 5
      (by simp [allocated, sampleEngineState]),
   imageTexture_descriptorSet_at_most_once_per_frame.2 sampleConstants
      ⟨InterlockMode.atomics, 1, false, 0⟩ sampleEngineState false 0
      ({ sampleBatch with imageTexture := some 5 }) 5 (by decide) rfl⟩
